import Mathlib

/-!
Shallow embedding of `src/lib/python/temporal/abstract_space_time_dataset.py`
(class `abstract_space_time_dataset`): the membership ledger
(`register_map` / `unregister_map`), collection teardown (`delete`),
extent and classification recomputation (`update_from_registered_maps`)
and the temporal relation matrix (`get_temporal_relation_matrix`).

The SQL database is modelled as an association list from table names to the
list of `id` values stored in the table (every register/link table of this
code has a single `id` column); the per-map metadata store is a list of map
records and the collection record is carried alongside in a `World`.
Time stamps are modelled as integers: the claims depend only on their linear
order, which is shared by the relative-time integers and by parsed absolute
datetimes (the absolute and relative branches of the source are otherwise
symmetric).

The SQL DDL/DML template files referenced by the source and the external
`abstract_dataset` base class are not part of the source tree; where their
behaviour decides a step they are modelled from the spec and marked with a
`Modelled from the spec:` doc comment.

Database statements that the Python code issues without a surrounding
`try`/`except` are modelled as returning an error (`RegFail`) when they can
fail (missing table, injected statement failure), and each public operation
additionally reports whether the database interface was closed on the taken
exit path (`dbif.close()`), to settle the connection-handling claims.
-/

namespace GrassTemporal

/-- Time-type classification of a space time dataset (the `map_time` value
written by `update_from_registered_maps`). -/
inductive MapTime
  | point
  | interval
  | mixed
deriving DecidableEq, Repr, Inhabited

/-- A registered map record: the relevant columns of the map's base,
temporal and metadata tables (`id`, `mapset`, `start_time`, `end_time`,
and the `stds_register` table-name field). -/
structure MapRecord where
  id : String
  mapset : String
  startTime : Int
  endTime : Option Int
  stdsRegister : Option String
deriving DecidableEq, Repr, Inhabited

/-- The collection (space time dataset) record: `id`, `name`, `mapset`,
the collection-side register table name (`get_map_register`), the aggregate
temporal extent, the `map_time` classification and the map count from the
metadata table. -/
structure STDS where
  id : String
  name : String
  mapset : String
  mapRegister : Option String
  startTime : Option Int
  endTime : Option Int
  mapTime : Option MapTime
  numberOfMaps : Nat
deriving DecidableEq, Repr, Inhabited

/-- The database state: the register (link) tables, the map records
(the map base/temporal/metadata view), the collection's own record and a
flag saying whether the collection's base row still exists. -/
structure World where
  tables : List (String × List String)
  maps : List MapRecord
  stds : STDS
  stdsRow : Bool
deriving DecidableEq, Repr, Inhabited

/-- Failure modes of the database statements issued by the source:
`notInDB` models the `core.fatal` on `is_in_db` returning false,
`mapsetMismatch` the `core.fatal` on a mapset difference, `createFail` a
failing `CREATE TABLE`/`DROP TABLE` statement (these are wrapped in
`try`/`except` blocks by the source), `stmtFail` a failing plain
SQL statement (issued without a `try`/`except`), and `noneFail` the Python
`TypeError` raised when an SQL string is built from a `None` table name. -/
inductive RegFail
  | notInDB
  | mapsetMismatch
  | createFail
  | stmtFail
  | noneFail
deriving DecidableEq, Repr, Inhabited

/-- Rows of table `n` (`SELECT id FROM n`), `none` when the table does not
exist. -/
def lookupTable (ts : List (String × List String)) (n : String) :
    Option (List String) :=
  match ts with
  | [] => none
  | e :: rest => if e.1 = n then some e.2 else lookupTable rest n

/-- Does table `n` exist. -/
def hasTable (ts : List (String × List String)) (n : String) : Bool :=
  (lookupTable ts n).isSome

/-- `CREATE TABLE n (id ...)` — a fresh empty table. -/
def createTable (ts : List (String × List String)) (n : String) :
    List (String × List String) :=
  (n, []) :: ts

/-- `INSERT INTO n (id) VALUES (v)`. -/
def insertRow (ts : List (String × List String)) (n v : String) :
    List (String × List String) :=
  ts.map (fun e => if e.1 = n then (e.1, e.2 ++ [v]) else e)

/-- `DELETE FROM n WHERE id = v`. -/
def deleteRow (ts : List (String × List String)) (n v : String) :
    List (String × List String) :=
  ts.map (fun e => if e.1 = n then (e.1, e.2.filter (fun x => x != v)) else e)

/-- `DROP TABLE n`. -/
def dropTable (ts : List (String × List String)) (n : String) :
    List (String × List String) :=
  ts.filter (fun e => e.1 != n)

/-- `map.is_in_db` / `map.select`: the map record stored under `mapId`. -/
def findMap (ms : List MapRecord) (mapId : String) : Option MapRecord :=
  ms.find? (fun m => m.id == mapId)

/-- `map.set_stds_register(t); map.metadata.update(dbif)`: persist the
map-side register table name on the map record. -/
def setStdsRegister (ms : List MapRecord) (mapId t : String) :
    List MapRecord :=
  ms.map (fun m => if m.id == mapId then { m with stdsRegister := some t } else m)

/-- `self.get_type()` of the space time dataset (fixed representative;
the claims do not depend on the concrete kind tag). -/
def stdsType : String := "strds"

/-- `map.get_type()` of the member maps (fixed representative). -/
def mapType : String := "raster"

/-- Map-side register table name generated by `register_map` lines 347-349:
`"map_" + uuid-hex + "_" + self.get_type() + "_register"` (the random uuid
hex is a parameter of the model). -/
def mapRegisterTableName (uuid : String) : String :=
  "map_" ++ uuid ++ "_" ++ stdsType ++ "_register"

/-- Collection-side register table name generated by `register_map`
line 381: `stds_name + "_" + stds_mapset + "_" + map.get_type() + "_register"`. -/
def stdsRegisterTableName (s : STDS) : String :=
  s.name ++ "_" ++ s.mapset ++ "_" ++ mapType ++ "_register"

/-- Map-side register table creation of `register_map` (lines 345-376):
when the map has no register table yet, generate the name, create the
table (the DDL template is modelled as: a fresh empty table of that name,
failing when the name is already taken) and persist the name on the map
record. -/
def ensure_map_register (uuid : String) (m : MapRecord) (w : World) :
    Except RegFail (String × World) :=
  match m.stdsRegister with
  | some t => .ok (t, w)
  | none =>
    let t := mapRegisterTableName uuid
    if hasTable w.tables t then .error .createFail
    else .ok (t, { w with tables := createTable w.tables t,
                          maps := setStdsRegister w.maps m.id t })

/-- Collection-side register table creation of `register_map`
(lines 379-413): when the collection has no register table yet, generate
the deterministic name, create the table and persist the name on the
collection record. -/
def ensure_stds_register (w : World) : Except RegFail (String × World) :=
  match w.stds.mapRegister with
  | some t => .ok (t, w)
  | none =>
    let t := stdsRegisterTableName w.stds
    if hasTable w.tables t then .error .createFail
    else .ok (t, { w with tables := createTable w.tables t,
                          stds := { w.stds with mapRegister := some t } })

/-- The table-creation and final-insert part of `register_map`
(lines 341-444), entered after the duplicate check has passed:
create the map-side register table when the map has none (lines 345-376),
create the collection-side register table when the collection has none
(lines 379-413), insert the collection id into the map-side table unless
already present (lines 415-431), then insert the map id into the
collection-side table (lines 433-439) and return `True`.
`failStdsInsert` injects a statement failure into the final insert; the
source wraps only the two `CREATE TABLE` statements in `try`/`except`
(closing a self-opened connection before re-raising), so the other
statement failures propagate without any close.  The third component of
the result records whether `dbif` was closed on the taken exit path. -/
def register_body (connect failStdsInsert : Bool) (uuid : String)
    (m : MapRecord) (w : World) : Except RegFail Bool × World × Bool :=
  match ensure_map_register uuid m w with
  | .error e => (.error e, w, connect)
  | .ok (mt, w1) =>
    match ensure_stds_register w1 with
    | .error e => (.error e, w1, connect)
    | .ok (ct, w2) =>
      -- `SELECT id FROM map_register_table WHERE id = stds_id` (line 421)
      match lookupTable w2.tables mt with
      | none => (.error .stmtFail, w2, false)
      | some mrs =>
        -- insert the collection id when absent (lines 425-431)
        let w3 := if mrs.contains w2.stds.id then w2
                  else { w2 with tables := insertRow w2.tables mt w2.stds.id }
        -- `INSERT INTO stds_register_table (id) VALUES (map_id)` (line 439)
        if failStdsInsert then (.error .stmtFail, w3, false)
        else
          match lookupTable w3.tables ct with
          | none => (.error .stmtFail, w3, false)
          | some _ =>
            (.ok true, { w3 with tables := insertRow w3.tables ct m.id }, connect)

/-- `register_map` (lines 282-444): register map `mapId` in the space time
dataset.  `connect` is true when the operation opened the database
interface itself (`dbif == None` in the source).  Returns the Python return
value (or the raised failure), the resulting database state, and whether
`dbif` was closed on the taken exit path.  The source closes `dbif`
unconditionally — caller-supplied or not — before the two `core.fatal`
calls (lines 300-302 and 322-324), closes it only when self-opened on the
already-registered warning return, on the `CREATE TABLE` failure paths and
on success, and issues the duplicate-check and insert statements without
any `try`/`except`. -/
def register_map (connect failStdsInsert : Bool) (uuid mapId : String)
    (w : World) : Except RegFail Bool × World × Bool :=
  match findMap w.maps mapId with
  | none => (.error .notInDB, w, true)
  | some m =>
    if w.stds.mapset != m.mapset then (.error .mapsetMismatch, w, true)
    else
      -- duplicate check in the collection-side register table (lines 326-339)
      match w.stds.mapRegister with
      | some t =>
        match lookupTable w.tables t with
        | none => (.error .stmtFail, w, false)
        | some rs =>
          if rs.contains mapId then (.ok false, w, connect)
          else register_body connect failStdsInsert uuid m w
      | none => register_body connect failStdsInsert uuid m w

/-- `unregister_map` (lines 446-506): unregister map `mapId` from the space
time dataset.  The registration check consults only the map-side register
table (lines 474-487); when the collection id is absent there the function
warns and returns `False` with no deletes.  On the success path it deletes
the collection id from the map-side table and the map id from the
collection-side table and then falls off the end of the function, so the
Python return value is `None` (modelled as `some false` vs `none` in the
`Option Bool` result).  When the map has no map-side register table at all
the SQL string concatenation with `None` raises a `TypeError`
(`noneFail`). -/
def unregister_map (connect : Bool) (mapId : String) (w : World) :
    Except RegFail (Option Bool) × World × Bool :=
  match findMap w.maps mapId with
  | none => (.error .notInDB, w, true)
  | some m =>
    match m.stdsRegister with
    | none => (.error .noneFail, w, false)
    | some mt =>
      match lookupTable w.tables mt with
      | none => (.error .stmtFail, w, false)
      | some mrs =>
        if !(mrs.contains w.stds.id) then (.ok (some false), w, connect)
        else
          -- `DELETE FROM map_register_table WHERE id = stds_id` (line 495)
          let w1 := { w with tables := deleteRow w.tables mt w.stds.id }
          match w1.stds.mapRegister with
          | none => (.ok none, w1, connect)
          | some ct =>
            match lookupTable w1.tables ct with
            | none => (.error .stmtFail, w1, false)
            | some _ =>
              (.ok none, { w1 with tables := deleteRow w1.tables ct mapId }, connect)

/-- `SELECT max(start_time)` over a list of member records (`none` on an
empty list, as the SQL aggregate returns NULL). -/
def maxStart (ms : List MapRecord) : Option Int :=
  ms.foldl (fun a m =>
    match a with
    | none => some m.startTime
    | some x => some (max x m.startTime)) none

/-- `SELECT min(start_time)` over a list of member records. -/
def minStart (ms : List MapRecord) : Option Int :=
  ms.foldl (fun a m =>
    match a with
    | none => some m.startTime
    | some x => some (min x m.startTime)) none

/-- `SELECT max(end_time)` over a list of member records: NULL end times
are excluded by the SQL aggregate, and the result is NULL when no row has
an end time. -/
def maxEnd (ms : List MapRecord) : Option Int :=
  (ms.filterMap (fun m => m.endTime)).foldl (fun a x =>
    match a with
    | none => some x
    | some y => some (max y x)) none

/-- `SELECT ... FROM <map view> WHERE id IN (SELECT id FROM <register>)`:
the map records whose id appears among the register-table rows, in view
order. -/
def viewMembers (ms : List MapRecord) (rows : List String) : List MapRecord :=
  ms.filter (fun m => rows.contains m.id)

/-- `update_from_registered_maps` (lines 508-675): recompute the
collection's temporal extent and `map_time` classification from its
currently registered maps.  A no-op when the collection has no register
table (lines 527-528).

The aggregate extent/metadata update executed first (lines 546-576) comes
from template files outside the source tree.  Modelled from the spec:
within one transaction the collection record receives the minimum member
start time, the maximum member end time (nulls excluded) and the member
count.

The classification then follows the source exactly: the collection's end
time is read back (line 579); when it is NULL, `use_start_time` is set
(lines 587-588); otherwise the maximum member start time is queried
(lines 590-617) and compared (lines 619-623): strictly smaller stored end
time gives `mixed` and sets `use_start_time`, otherwise `interval`.  When
`use_start_time` holds, the end time is overwritten with the maximum
member start time (lines 626-649) and, when the read end time was NULL,
the classification candidate becomes `point` (lines 651-652).  Finally the
candidate is written when the map count is positive and NULL otherwise
(lines 654-670).  The unreachable branch in which the read end time is
non-NULL while no member exists models the Python driver crash on a NULL
aggregate row (lines 607-615) as a statement failure. -/
def update_from_registered_maps (w : World) : Except RegFail World :=
  match w.stds.mapRegister with
  | none => .ok w
  | some reg =>
    match lookupTable w.tables reg with
    | none => .error .stmtFail
    | some rows =>
      let members := viewMembers w.maps rows
      -- Modelled from the spec: the extent/metadata update templates
      let stds1 : STDS := { w.stds with
        startTime := minStart members,
        endTime := maxEnd members,
        numberOfMaps := members.length }
      match stds1.endTime with
      | none =>
        -- use_start_time: overwrite the end time with max(start_time) and
        -- classify as point; an empty collection gets a NULL classification
        let stds2 := { stds1 with endTime := maxStart members }
        let stds3 := { stds2 with
          mapTime := if stds2.numberOfMaps > 0 then some .point else none }
        .ok { w with stds := stds3 }
      | some e =>
        match maxStart members with
        | none => .error .stmtFail
        | some mx =>
          if e < mx then
            let stds2 := { stds1 with endTime := some mx }
            let stds3 := { stds2 with
              mapTime := if stds2.numberOfMaps > 0 then some .mixed else none }
            .ok { w with stds := stds3 }
          else
            let stds3 := { stds1 with
              mapTime := if stds1.numberOfMaps > 0 then some .interval else none }
            .ok { w with stds := stds3 }

/-- Insert a map record into a list sorted by ascending start time. -/
def insertSorted (m : MapRecord) : List MapRecord → List MapRecord
  | [] => [m]
  | x :: xs =>
    if m.startTime ≤ x.startTime then m :: x :: xs else x :: insertSorted m xs

/-- `ORDER BY start_time`: sort member records by ascending start time. -/
def sortByStart : List MapRecord → List MapRecord
  | [] => []
  | x :: xs => insertSorted x (sortByStart xs)

/-- Modelled from the spec: `temporal_relation` of the external
`abstract_dataset` base class (spec section 4.4) — the Allen-style
interval relation of `a` to `b` over the `(start, end)` pairs, a missing
end time standing for the degenerate interval whose end equals its
start. -/
def temporal_relation (a b : MapRecord) : String :=
  let sa := a.startTime
  let ea := a.endTime.getD a.startTime
  let sb := b.startTime
  let eb := b.endTime.getD b.startTime
  if sa = sb ∧ ea = eb then "equal"
  else if ea < sb then "before"
  else if eb < sa then "after"
  else if ea = sb then "meets"
  else if eb = sa then "met"
  else if sa = sb ∧ ea < eb then "starts"
  else if ea = eb ∧ sb < sa then "finishes"
  else if sb < sa ∧ ea < eb then "during"
  else if sa < sb ∧ eb < ea then "contains"
  else if sa < sb then "overlaps"
  else "overlapped"

/-- `get_temporal_relation_matrix` (lines 110-146): fetch the registered
maps ordered by start time, append one header row holding the map ids, and
then, for each map `A`, one row holding `A.temporal_relation(B)` for every
map `B`.  With no register table the fetch yields no rows and the result is
the single empty header row. -/
def get_temporal_relation_matrix (w : World) :
    Except RegFail (List (List String)) :=
  match w.stds.mapRegister with
  | none => .ok [[]]
  | some reg =>
    match lookupTable w.tables reg with
    | none => .error .stmtFail
    | some rows =>
      let ms := sortByStart (viewMembers w.maps rows)
      .ok ((ms.map (fun m => m.id)) ::
        ms.map (fun a => ms.map (fun b => temporal_relation a b)))

/-- The unregistration loop of `delete` (lines 259-263): call
`unregister_map` with the caller's `dbif` for each registered map id in
turn; a raised failure aborts the loop and propagates (the third component
reports whether `dbif` was closed by the failing call). -/
def unregisterAll (w : World) : List String → Except RegFail Unit × World × Bool
  | [] => (.ok (), w, false)
  | i :: rest =>
    match unregister_map false i w with
    | (.ok _, w1, _) => unregisterAll w1 rest
    | (.error e, w1, c) => (.error e, w1, c)

/-- `delete` (lines 233-280): delete the space time dataset.  When a
register table exists, fetch the registered map ids (ids present both in
the register table and in the map view), unregister each of them, then
drop the register table (wrapped in `try`/`except`: a self-opened `dbif`
is closed before re-raising).  In every case the collection's base record
is then deleted and the in-memory handle reset to the unbound state
(`self.reset(None)`, modelled as the `none` handle in the result). -/
def delete (connect : Bool) (w : World) :
    Except RegFail (Option STDS) × World × Bool :=
  match w.stds.mapRegister with
  | none => (.ok none, { w with stdsRow := false }, connect)
  | some reg =>
    match lookupTable w.tables reg with
    | none => (.error .stmtFail, w, false)
    | some rows =>
      let ids := (viewMembers w.maps rows).map (fun m => m.id)
      match unregisterAll w ids with
      | (.error e, w1, c) => (.error e, w1, c)
      | (.ok _, w1, _) =>
        if hasTable w1.tables reg then
          (.ok none,
           { w1 with tables := dropTable w1.tables reg, stdsRow := false },
           connect)
        else (.error .createFail, w1, connect)

/-! ### Basic lemmas about the table store -/

theorem lookupTable_cons (e : String × List String)
    (rest : List (String × List String)) (n : String) :
    lookupTable (e :: rest) n
      = if e.1 = n then some e.2 else lookupTable rest n := rfl

theorem insertRow_cons (e : String × List String)
    (rest : List (String × List String)) (n v : String) :
    insertRow (e :: rest) n v
      = (if e.1 = n then (e.1, e.2 ++ [v]) else e) :: insertRow rest n v := by
  simp only [insertRow, List.map_cons]

theorem deleteRow_cons (e : String × List String)
    (rest : List (String × List String)) (n v : String) :
    deleteRow (e :: rest) n v
      = (if e.1 = n then (e.1, e.2.filter (fun x => x != v)) else e)
          :: deleteRow rest n v := by
  simp only [deleteRow, List.map_cons]

theorem dropTable_cons (e : String × List String)
    (rest : List (String × List String)) (n : String) :
    dropTable (e :: rest) n
      = if e.1 = n then dropTable rest n else e :: dropTable rest n := by
  by_cases h : e.1 = n <;> simp [dropTable, List.filter_cons, h]

theorem lookupTable_createTable_self (ts : List (String × List String))
    (n : String) : lookupTable (createTable ts n) n = some [] := by
  simp [createTable, lookupTable_cons]

theorem lookupTable_createTable_ne (ts : List (String × List String))
    {n n' : String} (h : n' ≠ n) :
    lookupTable (createTable ts n) n' = lookupTable ts n' := by
  rw [createTable, lookupTable_cons, if_neg (fun hh => h hh.symm)]

theorem lookupTable_insertRow_self (ts : List (String × List String))
    (n v : String) :
    lookupTable (insertRow ts n v) n
      = (lookupTable ts n).map (fun rs => rs ++ [v]) := by
  induction ts with
  | nil => rfl
  | cons e rest ih =>
    rw [insertRow_cons]
    by_cases h : e.1 = n
    · rw [if_pos h, lookupTable_cons, lookupTable_cons, if_pos h, if_pos h]
      rfl
    · rw [if_neg h, lookupTable_cons, lookupTable_cons, if_neg h, if_neg h, ih]

theorem lookupTable_insertRow_ne (ts : List (String × List String))
    {n n' : String} (v : String) (h : n' ≠ n) :
    lookupTable (insertRow ts n v) n' = lookupTable ts n' := by
  induction ts with
  | nil => rfl
  | cons e rest ih =>
    rw [insertRow_cons]
    by_cases h1 : e.1 = n
    · have h2 : e.1 ≠ n' := fun hh => h (hh ▸ h1 ▸ rfl)
      rw [if_pos h1, lookupTable_cons, lookupTable_cons]
      simp only [if_neg h2]
      exact ih
    · rw [if_neg h1, lookupTable_cons, lookupTable_cons]
      by_cases h2 : e.1 = n'
      · rw [if_pos h2, if_pos h2]
      · rw [if_neg h2, if_neg h2, ih]

theorem lookupTable_deleteRow_self (ts : List (String × List String))
    (n v : String) :
    lookupTable (deleteRow ts n v) n
      = (lookupTable ts n).map (fun rs => rs.filter (fun x => x != v)) := by
  induction ts with
  | nil => rfl
  | cons e rest ih =>
    rw [deleteRow_cons]
    by_cases h : e.1 = n
    · rw [if_pos h, lookupTable_cons, lookupTable_cons, if_pos h, if_pos h]
      rfl
    · rw [if_neg h, lookupTable_cons, lookupTable_cons, if_neg h, if_neg h, ih]

theorem lookupTable_deleteRow_ne (ts : List (String × List String))
    {n n' : String} (v : String) (h : n' ≠ n) :
    lookupTable (deleteRow ts n v) n' = lookupTable ts n' := by
  induction ts with
  | nil => rfl
  | cons e rest ih =>
    rw [deleteRow_cons]
    by_cases h1 : e.1 = n
    · have h2 : e.1 ≠ n' := fun hh => h (hh ▸ h1 ▸ rfl)
      rw [if_pos h1, lookupTable_cons, lookupTable_cons]
      rw [if_neg (show ¬ (e.1, e.2.filter (fun x => x != v)).1 = n' from h2),
        if_neg h2, ih]
    · rw [if_neg h1, lookupTable_cons, lookupTable_cons]
      by_cases h2 : e.1 = n'
      · rw [if_pos h2, if_pos h2]
      · rw [if_neg h2, if_neg h2, ih]

theorem lookupTable_dropTable_self (ts : List (String × List String))
    (n : String) : lookupTable (dropTable ts n) n = none := by
  induction ts with
  | nil => rfl
  | cons e rest ih =>
    rw [dropTable_cons]
    by_cases h : e.1 = n
    · rw [if_pos h]
      exact ih
    · rw [if_neg h, lookupTable_cons, if_neg h]
      exact ih

theorem lookupTable_dropTable_ne (ts : List (String × List String))
    {n n' : String} (h : n' ≠ n) :
    lookupTable (dropTable ts n) n' = lookupTable ts n' := by
  induction ts with
  | nil => rfl
  | cons e rest ih =>
    rw [dropTable_cons]
    by_cases h1 : e.1 = n
    · have h2 : e.1 ≠ n' := fun hh => h (hh ▸ h1 ▸ rfl)
      rw [if_pos h1, lookupTable_cons, if_neg h2, ih]
    · rw [if_neg h1, lookupTable_cons, lookupTable_cons]
      by_cases h2 : e.1 = n'
      · rw [if_pos h2, if_pos h2]
      · rw [if_neg h2, if_neg h2, ih]

theorem lookupTable_deleteRow_isSome (ts : List (String × List String))
    (n v n' : String) :
    (lookupTable (deleteRow ts n v) n').isSome
      = (lookupTable ts n').isSome := by
  by_cases h : n' = n
  · subst h
    rw [lookupTable_deleteRow_self]
    cases lookupTable ts n' <;> rfl
  · rw [lookupTable_deleteRow_ne ts v h]

theorem deleteRow_subset (ts : List (String × List String))
    {n v n' : String} {rs' : List String}
    (h : lookupTable (deleteRow ts n v) n' = some rs') :
    ∃ rs, lookupTable ts n' = some rs ∧ ∀ x ∈ rs', x ∈ rs := by
  by_cases hn : n' = n
  · subst hn
    rw [lookupTable_deleteRow_self] at h
    cases hl : lookupTable ts n' with
    | none => rw [hl] at h; simp at h
    | some rs =>
      rw [hl] at h
      simp only [Option.map_some', Option.some.injEq] at h
      exact ⟨rs, rfl, fun x hx => List.mem_of_mem_filter (h ▸ hx)⟩
  · rw [lookupTable_deleteRow_ne ts v hn] at h
    exact ⟨rs', h, fun x hx => hx⟩

theorem deleteRow_not_mem (ts : List (String × List String))
    {n v : String} {rs' : List String}
    (h : lookupTable (deleteRow ts n v) n = some rs') : v ∉ rs' := by
  rw [lookupTable_deleteRow_self] at h
  cases hl : lookupTable ts n with
  | none => rw [hl] at h; simp at h
  | some rs =>
    rw [hl] at h
    simp only [Option.map_some', Option.some.injEq] at h
    intro hv
    have := List.of_mem_filter (h ▸ hv)
    simp at this

/-! ### Basic lemmas about the map store and the aggregates -/

theorem findMap_cons (x : MapRecord) (l : List MapRecord) (i : String) :
    findMap (x :: l) i = if x.id = i then some x else findMap l i := by
  by_cases h : x.id = i
  · simp [findMap, List.find?_cons_of_pos, h]
  · simp [findMap, List.find?_cons_of_neg, h]

theorem setStdsRegister_cons (x : MapRecord) (l : List MapRecord)
    (i t : String) :
    setStdsRegister (x :: l) i t
      = (if x.id = i then { x with stdsRegister := some t } else x)
          :: setStdsRegister l i t := by
  by_cases h : x.id = i <;> simp [setStdsRegister, h]

theorem findMap_setStdsRegister_self (ms : List MapRecord) (i t : String) :
    findMap (setStdsRegister ms i t) i
      = (findMap ms i).map (fun m => { m with stdsRegister := some t }) := by
  induction ms with
  | nil => rfl
  | cons m rest ih =>
    rw [setStdsRegister_cons]
    by_cases h : m.id = i
    · rw [if_pos h, findMap_cons, findMap_cons, if_pos h,
        if_pos (show ({ m with stdsRegister := some t } : MapRecord).id = i from h)]
      rfl
    · rw [if_neg h, findMap_cons, findMap_cons, if_neg h, if_neg h, ih]

theorem findMap_of_nodup (ms : List MapRecord) (m : MapRecord)
    (hnd : (ms.map (fun x => x.id)).Nodup) (hm : m ∈ ms) :
    findMap ms m.id = some m := by
  induction ms with
  | nil => simp at hm
  | cons x rest ih =>
    simp only [List.map_cons, List.nodup_cons] at hnd
    rw [findMap_cons]
    rcases List.mem_cons.mp hm with h | h
    · rw [if_pos (by rw [h])]
      rw [h]
    · have hne : x.id ≠ m.id := by
        intro he
        exact hnd.1 (he ▸ List.mem_map_of_mem (fun y => y.id) h)
      rw [if_neg hne]
      exact ih hnd.2 h

theorem maxStart_aux (ms : List MapRecord) (x : Int) :
    (ms.foldl (fun a m =>
      match a with
      | none => some m.startTime
      | some z => some (max z m.startTime)) (some x)).isSome := by
  induction ms generalizing x with
  | nil => rfl
  | cons m rest ih => simpa using ih (max x m.startTime)

theorem maxStart_isSome (ms : List MapRecord) (h : ms ≠ []) :
    (maxStart ms).isSome := by
  cases ms with
  | nil => exact absurd rfl h
  | cons m rest =>
    simp only [maxStart, List.foldl_cons]
    exact maxStart_aux rest m.startTime

theorem maxEnd_ne_nil (ms : List MapRecord) (e : Int)
    (h : maxEnd ms = some e) : ms ≠ [] := by
  intro hnil
  subst hnil
  simp [maxEnd] at h

/-! ### Claim theorems -/

/-- C1: for every collection with a link table, after
`update_from_registered_maps`: when the collection's stored end time (the
value read back after the aggregate extent update, i.e. the maximum member
end time) is null, the written classification is `point` and the
collection's end time is set to the maximum member start time; and the
final classification written is null whenever the member count is 0,
regardless of the value computed earlier. -/
theorem C1_recompute_point_and_empty_null (w : World) (reg : String)
    (rows : List String)
    (h1 : w.stds.mapRegister = some reg)
    (h2 : lookupTable w.tables reg = some rows) :
    ∃ w', update_from_registered_maps w = .ok w' ∧
      (viewMembers w.maps rows = [] → w'.stds.mapTime = none) ∧
      (viewMembers w.maps rows ≠ [] →
        maxEnd (viewMembers w.maps rows) = none →
        w'.stds.mapTime = some .point ∧
        w'.stds.endTime = maxStart (viewMembers w.maps rows) ∧
        (maxStart (viewMembers w.maps rows)).isSome) := by
  cases hE : maxEnd (viewMembers w.maps rows) with
  | none =>
    unfold update_from_registered_maps
    rw [h1]
    simp only [h2, hE]
    refine ⟨_, rfl, ?_, ?_⟩
    · intro hnil
      simp [hnil]
    · intro hne _
      refine ⟨?_, rfl, maxStart_isSome _ hne⟩
      have : 0 < (viewMembers w.maps rows).length := List.length_pos.mpr hne
      simp [this]
  | some e =>
    have hne : viewMembers w.maps rows ≠ [] := maxEnd_ne_nil _ e hE
    have hs := maxStart_isSome (viewMembers w.maps rows) hne
    cases hS : maxStart (viewMembers w.maps rows) with
    | none => rw [hS] at hs; simp at hs
    | some mx =>
      unfold update_from_registered_maps
      rw [h1]
      simp only [h2, hE, hS]
      by_cases hlt : e < mx
      · rw [if_pos hlt]
        refine ⟨_, rfl, ?_, ?_⟩
        · intro hnil
          rw [hnil] at hE
          simp [maxEnd] at hE
        · intro _ hnone
          exact absurd hnone (by simp)
      · rw [if_neg hlt]
        refine ⟨_, rfl, ?_, ?_⟩
        · intro hnil
          rw [hnil] at hE
          simp [maxEnd] at hE
        · intro _ hnone
          exact absurd hnone (by simp)

/-- Witness for C1 at a concrete input: one registered map with start
time 3 and no end time; recompute classifies the collection as `point`
and sets its end time to 3. -/
theorem C1_recompute_point_and_empty_null_witness :
    ({ tables := [("ct", ["M"])],
       maps := [{ id := "M", mapset := "p", startTime := 3, endTime := none,
                  stdsRegister := some "mt" }],
       stds := { id := "C", name := "n", mapset := "p",
                 mapRegister := some "ct", startTime := none,
                 endTime := none, mapTime := none, numberOfMaps := 0 },
       stdsRow := true } : World).stds.mapRegister = some "ct" ∧
    ∃ w', update_from_registered_maps
      { tables := [("ct", ["M"])],
        maps := [{ id := "M", mapset := "p", startTime := 3, endTime := none,
                   stdsRegister := some "mt" }],
        stds := { id := "C", name := "n", mapset := "p",
                  mapRegister := some "ct", startTime := none,
                  endTime := none, mapTime := none, numberOfMaps := 0 },
        stdsRow := true } = .ok w' ∧
      w'.stds.mapTime = some .point ∧ w'.stds.endTime = some 3 := by
  refine ⟨rfl, ?_⟩
  obtain ⟨w', hw, _, hpt⟩ :=
    C1_recompute_point_and_empty_null
      { tables := [("ct", ["M"])],
        maps := [{ id := "M", mapset := "p", startTime := 3, endTime := none,
                   stdsRegister := some "mt" }],
        stds := { id := "C", name := "n", mapset := "p",
                  mapRegister := some "ct", startTime := none,
                  endTime := none, mapTime := none, numberOfMaps := 0 },
        stdsRow := true } "ct" ["M"] rfl rfl
  obtain ⟨hmt, hend, _⟩ := hpt (by decide) (by decide)
  exact ⟨w', hw, hmt, by rw [hend]; decide⟩

/-- C2: for every collection with a non-null stored end time (the value
read back after the aggregate extent update) and at least one member,
`update_from_registered_maps` compares that end time with the maximum
member start time: strictly smaller gives classification `mixed` and the
end time is overwritten with the maximum member start time; otherwise
(equality included) the classification is `interval` and the end time is
left at the compared value. -/
theorem C2_recompute_interval_mixed (w : World) (reg : String)
    (rows : List String) (e mx : Int)
    (h1 : w.stds.mapRegister = some reg)
    (h2 : lookupTable w.tables reg = some rows)
    (hE : maxEnd (viewMembers w.maps rows) = some e)
    (hS : maxStart (viewMembers w.maps rows) = some mx) :
    ∃ w', update_from_registered_maps w = .ok w' ∧
      (e < mx → w'.stds.mapTime = some .mixed ∧ w'.stds.endTime = some mx) ∧
      (mx ≤ e → w'.stds.mapTime = some .interval ∧ w'.stds.endTime = some e) := by
  have hne : viewMembers w.maps rows ≠ [] := maxEnd_ne_nil _ e hE
  have hlen : 0 < (viewMembers w.maps rows).length := List.length_pos.mpr hne
  unfold update_from_registered_maps
  rw [h1]
  simp only [h2, hE, hS]
  by_cases hlt : e < mx
  · rw [if_pos hlt]
    refine ⟨_, rfl, fun _ => ⟨?_, rfl⟩, fun hle => absurd hlt (not_lt.mpr hle)⟩
    simp [hlen]
  · rw [if_neg hlt]
    refine ⟨_, rfl, fun hlt2 => absurd hlt2 hlt, fun _ => ⟨?_, rfl⟩⟩
    simp [hlen]

/-- Witness for C2 at a concrete input: a member with start 0 and end 5
gives a read-back end time 5 and maximum start 0; 0 ≤ 5, so the
classification is `interval` and the end time stays 5. -/
theorem C2_recompute_interval_mixed_witness :
    (({ tables := [("ct", ["M"])],
        maps := [{ id := "M", mapset := "p", startTime := 0, endTime := some 5,
                   stdsRegister := some "mt" }],
        stds := { id := "C", name := "n", mapset := "p",
                  mapRegister := some "ct", startTime := none,
                  endTime := none, mapTime := none, numberOfMaps := 0 },
        stdsRow := true } : World).stds.mapRegister = some "ct") ∧
    ∃ w', update_from_registered_maps
      { tables := [("ct", ["M"])],
        maps := [{ id := "M", mapset := "p", startTime := 0, endTime := some 5,
                   stdsRegister := some "mt" }],
        stds := { id := "C", name := "n", mapset := "p",
                  mapRegister := some "ct", startTime := none,
                  endTime := none, mapTime := none, numberOfMaps := 0 },
        stdsRow := true } = .ok w' ∧
      w'.stds.mapTime = some .interval ∧ w'.stds.endTime = some 5 := by
  refine ⟨rfl, ?_⟩
  obtain ⟨w', hw, _, hint⟩ :=
    C2_recompute_interval_mixed
      { tables := [("ct", ["M"])],
        maps := [{ id := "M", mapset := "p", startTime := 0, endTime := some 5,
                   stdsRegister := some "mt" }],
        stds := { id := "C", name := "n", mapset := "p",
                  mapRegister := some "ct", startTime := none,
                  endTime := none, mapTime := none, numberOfMaps := 0 },
        stdsRow := true } "ct" ["M"] 5 0 rfl rfl (by decide) (by decide)
  obtain ⟨hmt, hend⟩ := hint (by decide)
  exact ⟨w', hw, hmt, hend⟩

/-- C10: `unregister_map` decides registration by consulting only the
member-side register table: when the collection id is absent from the
member-side table while the member id is still present in the
collection-side table, it returns `False` and performs no writes — the
state is returned unchanged, so the stale collection-side row stays in
place. -/
theorem C10_unregister_member_side_only (connect : Bool) (w : World)
    (mapId : String) (m : MapRecord) (mt ct : String)
    (mrs crs : List String)
    (hfind : findMap w.maps mapId = some m)
    (hmt : m.stdsRegister = some mt)
    (hmrs : lookupTable w.tables mt = some mrs)
    (habsent : mrs.contains w.stds.id = false)
    (_hct : w.stds.mapRegister = some ct)
    (hcrs : lookupTable w.tables ct = some crs)
    (hstale : crs.contains mapId = true) :
    unregister_map connect mapId w = (.ok (some false), w, connect) ∧
      lookupTable (unregister_map connect mapId w).2.1.tables ct = some crs ∧
      crs.contains mapId = true := by
  have hnotmem : w.stds.id ∉ mrs := by simpa using habsent
  have hmain : unregister_map connect mapId w = (.ok (some false), w, connect) := by
    unfold unregister_map
    rw [hfind]
    simp [hmt, hmrs, hnotmem]
  exact ⟨hmain, by rw [hmain]; exact hcrs, hstale⟩

/-- Witness for C10 at a concrete one-sided state: `"C"` is absent from
the member-side table `mt` while `"M"` is still listed in the
collection-side table `ct`; unregister returns `False` and repairs
nothing. -/
theorem C10_unregister_member_side_only_witness :
    findMap ([{ id := "M", mapset := "p", startTime := 0, endTime := none,
                stdsRegister := some "mt" }])
        "M" = some { id := "M", mapset := "p", startTime := 0, endTime := none,
                     stdsRegister := some "mt" } ∧
    unregister_map false "M"
      { tables := [("mt", []), ("ct", ["M"])],
        maps := [{ id := "M", mapset := "p", startTime := 0, endTime := none,
                   stdsRegister := some "mt" }],
        stds := { id := "C", name := "n", mapset := "p",
                  mapRegister := some "ct", startTime := none, endTime := none,
                  mapTime := none, numberOfMaps := 1 },
        stdsRow := true }
      = (.ok (some false),
         { tables := [("mt", []), ("ct", ["M"])],
           maps := [{ id := "M", mapset := "p", startTime := 0, endTime := none,
                      stdsRegister := some "mt" }],
           stds := { id := "C", name := "n", mapset := "p",
                     mapRegister := some "ct", startTime := none, endTime := none,
                     mapTime := none, numberOfMaps := 1 },
           stdsRow := true },
         false) := by
  refine ⟨by decide, ?_⟩
  exact (C10_unregister_member_side_only false
    { tables := [("mt", []), ("ct", ["M"])],
      maps := [{ id := "M", mapset := "p", startTime := 0, endTime := none,
                 stdsRegister := some "mt" }],
      stds := { id := "C", name := "n", mapset := "p",
                mapRegister := some "ct", startTime := none, endTime := none,
                mapTime := none, numberOfMaps := 1 },
      stdsRow := true }
    "M" { id := "M", mapset := "p", startTime := 0, endTime := none,
          stdsRegister := some "mt" }
    "mt" "ct" [] ["M"] (by decide) rfl (by decide) (by decide) rfl
    (by decide) (by decide)).1

/-- C5 (code bug, at the failing input): for a registered pair the claim
says `unregister` deletes from both link tables and returns `true`; the
source deletes from both tables but then falls off the end of the
function, so Python returns `None` (modelled `none`), not `True`. -/
theorem C5_unregister_returns_none_not_true :
    (unregister_map false "M"
       { tables := [("mt", ["C"]), ("ct", ["M"])],
         maps := [{ id := "M", mapset := "p", startTime := 0, endTime := none,
                    stdsRegister := some "mt" }],
         stds := { id := "C", name := "n", mapset := "p",
                   mapRegister := some "ct", startTime := none, endTime := none,
                   mapTime := none, numberOfMaps := 1 },
         stdsRow := true }).1 = .ok none ∧
    lookupTable (unregister_map false "M"
       { tables := [("mt", ["C"]), ("ct", ["M"])],
         maps := [{ id := "M", mapset := "p", startTime := 0, endTime := none,
                    stdsRegister := some "mt" }],
         stds := { id := "C", name := "n", mapset := "p",
                   mapRegister := some "ct", startTime := none, endTime := none,
                   mapTime := none, numberOfMaps := 1 },
         stdsRow := true }).2.1.tables "mt" = some [] ∧
    lookupTable (unregister_map false "M"
       { tables := [("mt", ["C"]), ("ct", ["M"])],
         maps := [{ id := "M", mapset := "p", startTime := 0, endTime := none,
                    stdsRegister := some "mt" }],
         stds := { id := "C", name := "n", mapset := "p",
                   mapRegister := some "ct", startTime := none, endTime := none,
                   mapTime := none, numberOfMaps := 1 },
         stdsRow := true }).2.1.tables "ct" = some [] := by
  exact ⟨rfl, rfl, rfl⟩

/-- C4 (counterexample): at a concrete input where the collection-side
insert fails after the member-side insert succeeded, the error propagates
while the member-side table keeps its new row — the inserts are not rolled
back as one transaction, refuting the claim at this input. -/
theorem C4_counterexample_no_rollback :
    (register_map false true "u" "M"
       { tables := [("ct", []), ("mt", [])],
         maps := [{ id := "M", mapset := "p", startTime := 0, endTime := none,
                    stdsRegister := some "mt" }],
         stds := { id := "C", name := "n", mapset := "p",
                   mapRegister := some "ct", startTime := none, endTime := none,
                   mapTime := none, numberOfMaps := 0 },
         stdsRow := true }).1 = .error .stmtFail ∧
    ¬ (lookupTable (register_map false true "u" "M"
       { tables := [("ct", []), ("mt", [])],
         maps := [{ id := "M", mapset := "p", startTime := 0, endTime := none,
                    stdsRegister := some "mt" }],
         stds := { id := "C", name := "n", mapset := "p",
                   mapRegister := some "ct", startTime := none, endTime := none,
                   mapTime := none, numberOfMaps := 0 },
         stdsRow := true }).2.1.tables "mt" = some []) := by
  exact ⟨rfl, by decide⟩

/-- C4 (amended): the two ledger inserts of `register_map` are issued with
no enclosing transaction and no rollback handling; when the
collection-side insert fails after the member-side insert succeeded, the
error propagates and the member-side row remains in place while the
collection-side table is unchanged — the partial ledger state persists. -/
theorem C4_insert_failure_partial_state (connect : Bool)
    (uuid mapId : String) (w : World) (m : MapRecord) (ct mt : String)
    (crs mrs : List String)
    (hfind : findMap w.maps mapId = some m)
    (hms : w.stds.mapset = m.mapset)
    (hct : w.stds.mapRegister = some ct)
    (hcrs : lookupTable w.tables ct = some crs)
    (hdup : crs.contains mapId = false)
    (hmt : m.stdsRegister = some mt)
    (hmrs : lookupTable w.tables mt = some mrs)
    (habsent : mrs.contains w.stds.id = false)
    (hne : ct ≠ mt) :
    ∃ w', register_map connect true uuid mapId w
        = (.error .stmtFail, w', false) ∧
      lookupTable w'.tables mt = some (mrs ++ [w.stds.id]) ∧
      lookupTable w'.tables ct = some crs := by
  unfold register_map
  rw [hfind]
  simp only [hms, bne_self_eq_false, Bool.false_eq_true, if_false, hct, hcrs,
    hdup, Bool.false_eq_true, if_false]
  unfold register_body ensure_map_register ensure_stds_register
  simp only [hmt, hct, hmrs, habsent, Bool.false_eq_true, if_false, if_true]
  refine ⟨_, rfl, ?_, ?_⟩
  · rw [lookupTable_insertRow_self, hmrs]
    rfl
  · rw [lookupTable_insertRow_ne _ _ hne]
    exact hcrs

/-- Witness for C4's amended theorem at a concrete input. -/
theorem C4_insert_failure_partial_state_witness :
    findMap ([{ id := "M", mapset := "p", startTime := 0, endTime := none,
                stdsRegister := some "mt" }]) "M"
      = some { id := "M", mapset := "p", startTime := 0, endTime := none,
               stdsRegister := some "mt" } ∧
    ∃ w', register_map false true "u" "M"
        { tables := [("ct", ["X"]), ("mt", [])],
          maps := [{ id := "M", mapset := "p", startTime := 0, endTime := none,
                     stdsRegister := some "mt" }],
          stds := { id := "C", name := "n", mapset := "p",
                    mapRegister := some "ct", startTime := none, endTime := none,
                    mapTime := none, numberOfMaps := 0 },
          stdsRow := true }
        = (.error .stmtFail, w', false) ∧
      lookupTable w'.tables "mt" = some ["C"] ∧
      lookupTable w'.tables "ct" = some ["X"] := by
  refine ⟨by decide, ?_⟩
  exact C4_insert_failure_partial_state false "u" "M"
    { tables := [("ct", ["X"]), ("mt", [])],
      maps := [{ id := "M", mapset := "p", startTime := 0, endTime := none,
                 stdsRegister := some "mt" }],
      stds := { id := "C", name := "n", mapset := "p",
                mapRegister := some "ct", startTime := none, endTime := none,
                mapTime := none, numberOfMaps := 0 },
      stdsRow := true }
    { id := "M", mapset := "p", startTime := 0, endTime := none,
      stdsRegister := some "mt" }
    "ct" "mt" ["X"] [] (by decide) rfl rfl (by decide) (by decide) rfl
    (by decide) (by decide) (by decide)

/-- `ensure_map_register` can only fail with a table-creation failure. -/
theorem ensure_map_register_error_eq (uuid : String) (m : MapRecord)
    (w : World) (e : RegFail)
    (h : ensure_map_register uuid m w = .error e) : e = .createFail := by
  unfold ensure_map_register at h
  dsimp only [] at h
  split at h
  · simp at h
  · split at h
    · simp only [Except.error.injEq] at h
      exact h.symm
    · simp at h

/-- `ensure_stds_register` can only fail with a table-creation failure. -/
theorem ensure_stds_register_error_eq (w : World) (e : RegFail)
    (h : ensure_stds_register w = .error e) : e = .createFail := by
  unfold ensure_stds_register at h
  dsimp only [] at h
  split at h
  · simp at h
  · split at h
    · simp only [Except.error.injEq] at h
      exact h.symm
    · simp at h

/-- C9 (counterexample): a caller-supplied connection (`connect = false`)
is closed by `register_map` on the `is_in_db` fatal path — the source
calls `dbif.close()` unconditionally at lines 300-302 before
`core.fatal` — refuting the claim that a connection supplied by the
caller is never closed by the operation. -/
theorem C9_counterexample_caller_conn_closed :
    (register_map false false "u" "M"
       { tables := [], maps := [],
         stds := { id := "C", name := "n", mapset := "p",
                   mapRegister := none, startTime := none, endTime := none,
                   mapTime := none, numberOfMaps := 0 },
         stdsRow := true }).1 = .error .notInDB ∧
    ¬ ((register_map false false "u" "M"
       { tables := [], maps := [],
         stds := { id := "C", name := "n", mapset := "p",
                   mapRegister := none, startTime := none, endTime := none,
                   mapTime := none, numberOfMaps := 0 },
         stdsRow := true }).2.2 = false) := by
  exact ⟨rfl, by decide⟩

/-- The connection-close behaviour the ledger operations actually
implement, as a function of how the operation exits: on a normal return
the connection is closed exactly when the operation opened it itself; on
the two `core.fatal` validation paths it is closed unconditionally (even
when caller-supplied); on a `CREATE TABLE`/`DROP TABLE` failure the
`except` handler closes a self-opened connection before re-raising; and on
a failing plain statement or the `None`-table-name `TypeError` nothing is
closed at all (a self-opened connection leaks). -/
def closedOnExit {α : Type} (connect : Bool) : Except RegFail α → Bool
  | .ok _ => connect
  | .error .notInDB => true
  | .error .mapsetMismatch => true
  | .error .createFail => connect
  | .error .stmtFail => false
  | .error .noneFail => false

/-- The close-on-exit characterization for the body of `register_map`. -/
theorem register_body_closed (connect failIns : Bool) (uuid : String)
    (m : MapRecord) (w : World) :
    (register_body connect failIns uuid m w).2.2
      = closedOnExit connect (register_body connect failIns uuid m w).1 := by
  cases hm : ensure_map_register uuid m w with
  | error e =>
    have he := ensure_map_register_error_eq _ _ _ _ hm
    subst he
    unfold register_body
    simp only [hm]
    simp [closedOnExit]
  | ok p =>
    obtain ⟨mt, w1⟩ := p
    cases hs : ensure_stds_register w1 with
    | error e =>
      have he := ensure_stds_register_error_eq _ _ hs
      subst he
      unfold register_body
      simp only [hm, hs]
      simp [closedOnExit]
    | ok q =>
      obtain ⟨ct, w2⟩ := q
      unfold register_body
      simp only [hm, hs]
      cases hl : lookupTable w2.tables mt with
      | none => simp [closedOnExit]
      | some mrs =>
        simp only []
        cases hcc : mrs.contains w2.stds.id <;>
          cases failIns <;>
            simp only [Bool.false_eq_true, if_true, if_false] <;>
          first
            | (simp [closedOnExit]; done)
            | ((cases lookupTable w2.tables ct <;> simp [closedOnExit]); done)
            | ((cases lookupTable (insertRow w2.tables mt w2.stds.id) ct <;>
                simp [closedOnExit]); done)

/-- The close-on-exit characterization for `unregister_map`. -/
theorem unregister_map_closed (connect : Bool) (mapId : String) (w : World) :
    (unregister_map connect mapId w).2.2
      = closedOnExit connect (unregister_map connect mapId w).1 := by
  unfold unregister_map
  cases hf : findMap w.maps mapId with
  | none => simp [closedOnExit]
  | some m =>
    simp only [hf]
    cases hmt : m.stdsRegister with
    | none => simp [closedOnExit]
    | some mt =>
      simp only [hmt]
      cases hl : lookupTable w.tables mt with
      | none => simp [closedOnExit]
      | some mrs =>
        simp only [hl]
        cases hcc : mrs.contains w.stds.id
        · simp [hcc, closedOnExit]
        · simp only [hcc, Bool.not_true, Bool.false_eq_true, if_false]
          cases hct : w.stds.mapRegister with
          | none => simp [closedOnExit]
          | some ct =>
            simp only [hct]
            cases lookupTable (deleteRow w.tables mt w.stds.id) ct <;>
              simp [closedOnExit]

/-- C9 (amended): on every exit path of `register_map` and
`unregister_map` the connection-close behaviour is exactly
`closedOnExit`: a self-opened connection is closed on success,
warning-return and table-creation failure, but not when a plain ledger
statement raises; and a caller-supplied connection is left open on those
paths but is closed on the two fatal validation paths (`is_in_db` false,
mapset mismatch). -/
theorem C9_connection_close_characterization (connect failIns : Bool)
    (uuid mapId : String) (w : World) :
    (register_map connect failIns uuid mapId w).2.2
      = closedOnExit connect (register_map connect failIns uuid mapId w).1 ∧
    (unregister_map connect mapId w).2.2
      = closedOnExit connect (unregister_map connect mapId w).1 := by
  constructor
  · unfold register_map
    repeat' split
    all_goals try simp [closedOnExit]
    all_goals exact register_body_closed _ _ _ _ _
  · exact unregister_map_closed connect mapId w

theorem findMap_id (ms : List MapRecord) (i : String) (m : MapRecord)
    (h : findMap ms i = some m) : m.id = i := by
  simpa using List.find?_some h

/-- What `ensure_map_register` produces on a clean state: the map-side
table name (kept or freshly generated), a state with the same collection
record, the map record now carrying the table name, the table present with
its old rows (or fresh and empty), and all other tables untouched. -/
theorem ensure_map_register_spec (uuid mapId : String) (m : MapRecord)
    (w : World)
    (hfind : findMap w.maps mapId = some m)
    (hmt : match m.stdsRegister with
           | none => hasTable w.tables (mapRegisterTableName uuid) = false
           | some t => ∃ rs, lookupTable w.tables t = some rs ∧
               rs.contains w.stds.id = false) :
    ∃ mt w1 rsM, ensure_map_register uuid m w = .ok (mt, w1) ∧
      mt = m.stdsRegister.getD (mapRegisterTableName uuid) ∧
      w1.stds = w.stds ∧
      (∃ m1, findMap w1.maps mapId = some m1 ∧ m1.stdsRegister = some mt ∧
        m1.mapset = m.mapset ∧ m1.id = m.id) ∧
      lookupTable w1.tables mt = some rsM ∧
      rsM.contains w.stds.id = false ∧
      (∀ n, n ≠ mt → lookupTable w1.tables n = lookupTable w.tables n) := by
  have hid := findMap_id w.maps mapId m hfind
  cases hmr : m.stdsRegister with
  | some t =>
    rw [hmr] at hmt
    obtain ⟨rs, hrs, hnc⟩ := hmt
    refine ⟨t, w, rs, ?_, rfl, rfl, ⟨m, hfind, hmr, rfl, rfl⟩,
      hrs, hnc, fun n _ => rfl⟩
    unfold ensure_map_register
    rw [hmr]
  | none =>
    rw [hmr] at hmt
    refine ⟨mapRegisterTableName uuid,
      { w with tables := createTable w.tables (mapRegisterTableName uuid),
               maps := setStdsRegister w.maps m.id (mapRegisterTableName uuid) },
      [], ?_, rfl, rfl, ?_, ?_, rfl, ?_⟩
    · unfold ensure_map_register
      rw [hmr]
      simp only [hmt, Bool.false_eq_true, if_false]
    · refine ⟨{ m with stdsRegister := some (mapRegisterTableName uuid) },
        ?_, rfl, rfl, rfl⟩
      have harg : setStdsRegister w.maps m.id (mapRegisterTableName uuid)
          = setStdsRegister w.maps mapId (mapRegisterTableName uuid) := by
        rw [hid]
      rw [harg, findMap_setStdsRegister_self, hfind]
      rfl
    · exact lookupTable_createTable_self _ _
    · intro n hn
      exact lookupTable_createTable_ne _ hn

/-- What `ensure_stds_register` produces on a clean state: the
collection-side table name (kept or freshly generated), a state with the
same map records, the collection record now carrying the table name, the
table present with its old rows (or fresh and empty), and all other tables
untouched. -/
theorem ensure_stds_register_spec (mapId : String) (w : World)
    (hct : match w.stds.mapRegister with
           | none => hasTable w.tables (stdsRegisterTableName w.stds) = false
           | some t => ∃ rs, lookupTable w.tables t = some rs ∧
               rs.contains mapId = false) :
    ∃ ct w2 rsC, ensure_stds_register w = .ok (ct, w2) ∧
      ct = w.stds.mapRegister.getD (stdsRegisterTableName w.stds) ∧
      w2.maps = w.maps ∧
      w2.stds.id = w.stds.id ∧ w2.stds.mapset = w.stds.mapset ∧
      w2.stds.mapRegister = some ct ∧
      lookupTable w2.tables ct = some rsC ∧
      rsC.contains mapId = false ∧
      (w.stds.mapRegister = none → rsC = []) ∧
      (∀ n, n ≠ ct → lookupTable w2.tables n = lookupTable w.tables n) := by
  cases hmr : w.stds.mapRegister with
  | some t =>
    rw [hmr] at hct
    obtain ⟨rs, hrs, hnc⟩ := hct
    refine ⟨t, w, rs, ?_, rfl, rfl, rfl, rfl, hmr, hrs, hnc,
      fun h => absurd h (by simp), fun n _ => rfl⟩
    unfold ensure_stds_register
    rw [hmr]
  | none =>
    rw [hmr] at hct
    refine ⟨stdsRegisterTableName w.stds,
      { w with tables := createTable w.tables (stdsRegisterTableName w.stds),
               stds := { w.stds with
                 mapRegister := some (stdsRegisterTableName w.stds) } },
      [], ?_, rfl, rfl, rfl, rfl, rfl,
      lookupTable_createTable_self _ _, rfl, fun _ => rfl,
      fun n hn => lookupTable_createTable_ne _ hn⟩
    unfold ensure_stds_register
    rw [hmr]
    simp only [hct, Bool.false_eq_true, if_false]

/-- `register_map` reduces to `register_body` once the validity checks and
the duplicate check have passed. -/
theorem register_map_eq_body (c f : Bool) (uuid mapId : String)
    (w : World) (m : MapRecord)
    (hfind : findMap w.maps mapId = some m)
    (hms : w.stds.mapset = m.mapset)
    (hct : match w.stds.mapRegister with
           | none => True
           | some t => ∃ rs, lookupTable w.tables t = some rs ∧
               rs.contains mapId = false) :
    register_map c f uuid mapId w = register_body c f uuid m w := by
  unfold register_map
  rw [hfind]
  simp only [hms, bne_self_eq_false, Bool.false_eq_true, if_false]
  cases hmr : w.stds.mapRegister with
  | none => rfl
  | some t =>
    rw [hmr] at hct
    obtain ⟨rs, hrs, hnc⟩ := hct
    simp only [hrs, hnc, Bool.false_eq_true, if_false]

/-- The success path of `register_body`: both ensure steps succeed, the
collection id is absent from the map-side table and gets inserted, then
the map id is inserted into the collection-side table. -/
theorem register_body_success (c : Bool) (uuid : String) (m : MapRecord)
    (w wA wB : World) (mt ct : String) (rsM : List String)
    (hEm : ensure_map_register uuid m w = .ok (mt, wA))
    (hEs : ensure_stds_register wA = .ok (ct, wB))
    (hBmt : lookupTable wB.tables mt = some rsM)
    (hnc : rsM.contains wB.stds.id = false)
    (hsome : (lookupTable (insertRow wB.tables mt wB.stds.id) ct).isSome
      = true) :
    register_body c false uuid m w
      = (.ok true,
         { wB with
           tables := insertRow (insertRow wB.tables mt wB.stds.id) ct m.id },
         c) := by
  unfold register_body
  simp only [hEm, hEs, hBmt, hnc, Bool.false_eq_true, if_false]
  cases hcl : lookupTable (insertRow wB.tables mt wB.stds.id) ct with
  | none => rw [hcl] at hsome; simp at hsome
  | some rs => simp only [hcl]

/-- The already-registered warning path of `register_map`: the duplicate
check finds the map id in the collection-side table and returns `False`
with no writes. -/
theorem register_map_already (c f : Bool) (uuid mapId : String)
    (w1 : World) (m1 : MapRecord) (ct : String) (rsC : List String)
    (hfind1 : findMap w1.maps mapId = some m1)
    (hms1 : w1.stds.mapset = m1.mapset)
    (hmr1 : w1.stds.mapRegister = some ct)
    (hrs : lookupTable w1.tables ct = some rsC)
    (hin : rsC.contains mapId = true) :
    register_map c f uuid mapId w1 = (.ok false, w1, c) := by
  unfold register_map
  rw [hfind1]
  simp only [hms1, bne_self_eq_false, Bool.false_eq_true, if_false, hmr1,
    hrs, hin, if_true]

/-- C3: registering the same (collection, member) pair twice in sequence
from a clean state: the first call returns `True` and leaves exactly one
row for the pair in each of the two link tables; the second call returns
`False` and leaves the database unchanged. -/
theorem C3_register_twice (connect : Bool) (uuid mapId : String)
    (w : World) (m : MapRecord)
    (hfind : findMap w.maps mapId = some m)
    (hms : w.stds.mapset = m.mapset)
    (hct : match w.stds.mapRegister with
           | none => hasTable w.tables (stdsRegisterTableName w.stds) = false
           | some t => ∃ rs, lookupTable w.tables t = some rs ∧
               rs.contains mapId = false)
    (hmt : match m.stdsRegister with
           | none => hasTable w.tables (mapRegisterTableName uuid) = false
           | some t => ∃ rs, lookupTable w.tables t = some rs ∧
               rs.contains w.stds.id = false)
    (hne : w.stds.mapRegister.getD (stdsRegisterTableName w.stds)
           ≠ m.stdsRegister.getD (mapRegisterTableName uuid)) :
    ∃ w1,
      register_map connect false uuid mapId w = (.ok true, w1, connect) ∧
      (∃ ct rsC, w1.stds.mapRegister = some ct ∧
        lookupTable w1.tables ct = some rsC ∧ rsC.count mapId = 1) ∧
      (∃ mt m1 rsM, findMap w1.maps mapId = some m1 ∧
        m1.stdsRegister = some mt ∧
        lookupTable w1.tables mt = some rsM ∧ rsM.count w.stds.id = 1) ∧
      register_map connect false uuid mapId w1 = (.ok false, w1, connect) := by
  obtain ⟨mt, wA, rsM, hEm, hmtd, hstdsA, ⟨m1, hfind1, hm1r, hm1ms, hm1id⟩,
    hAmt, hAnc, hAother⟩ := ensure_map_register_spec uuid mapId m w hfind hmt
  rw [← hmtd] at hne
  -- transfer the collection-side cleanliness to the state after the
  -- map-side table creation
  have hctA : match wA.stds.mapRegister with
      | none => hasTable wA.tables (stdsRegisterTableName wA.stds) = false
      | some t => ∃ rs, lookupTable wA.tables t = some rs ∧
          rs.contains mapId = false := by
    rw [hstdsA]
    cases hmr : w.stds.mapRegister with
    | none =>
      rw [hmr] at hct hne
      simp only [Option.getD_none] at hne
      simp only [hasTable] at hct ⊢
      rw [hAother _ hne]
      exact hct
    | some t =>
      rw [hmr] at hct hne
      simp only [Option.getD_some] at hne
      obtain ⟨rs, hrs, hnc⟩ := hct
      exact ⟨rs, by rw [hAother _ hne]; exact hrs, hnc⟩
  obtain ⟨ct, wB, rsC, hEs, hctd, hmapsB, hidB, hmsB, hmrB, hBct, hBnc,
    _, hBother⟩ := ensure_stds_register_spec mapId wA hctA
  -- the two resolved table names differ
  have hctmt : ct ≠ mt := by
    rw [hctd, hstdsA]
    exact hne
  have hidB2 : wB.stds.id = w.stds.id := by
    rw [hidB, hstdsA]
  have hmsB2 : wB.stds.mapset = w.stds.mapset := by
    rw [hmsB, hstdsA]
  -- evaluate the body
  have hBmt : lookupTable wB.tables mt = some rsM := by
    rw [hBother _ (fun hh => hctmt hh.symm)]
    exact hAmt
  have hnc2 : rsM.contains wB.stds.id = false := by
    rw [hidB2]
    exact hAnc
  have hct2 : lookupTable (insertRow wB.tables mt wB.stds.id) ct
      = some rsC := by
    rw [lookupTable_insertRow_ne _ _ hctmt]
    exact hBct
  have hbody := register_body_success connect uuid m w wA wB mt ct rsM
    hEm hEs hBmt hnc2 (by rw [hct2]; rfl)
  have hfirst := register_map_eq_body connect false uuid mapId w m hfind hms
    (by
      cases hmr : w.stds.mapRegister with
      | none => exact trivial
      | some t =>
        rw [hmr] at hct
        exact hct)
  -- the state after the first call
  refine ⟨{ wB with
      tables := insertRow (insertRow wB.tables mt wB.stds.id) ct m.id },
    by rw [hfirst, hbody], ?_, ?_, ?_⟩
  · refine ⟨ct, rsC ++ [m.id], hmrB, ?_, ?_⟩
    · rw [lookupTable_insertRow_self, hct2]
      rfl
    · have hidm : m.id = mapId := findMap_id w.maps mapId m hfind
      have hnin : mapId ∉ rsC := by simpa using hBnc
      rw [hidm, List.count_append, List.count_eq_zero.mpr hnin]
      simp
  · refine ⟨mt, m1, rsM ++ [wB.stds.id], ?_, hm1r, ?_, ?_⟩
    · show findMap wB.maps mapId = some m1
      rw [hmapsB]
      exact hfind1
    · show lookupTable (insertRow (insertRow wB.tables mt wB.stds.id) ct m.id)
        mt = some (rsM ++ [wB.stds.id])
      rw [lookupTable_insertRow_ne _ _ (fun hh => hctmt hh.symm),
        lookupTable_insertRow_self, hBmt]
      rfl
    · have hnin : w.stds.id ∉ rsM := by
        have := hnc2
        rw [hidB2] at this
        simpa using this
      rw [hidB2, List.count_append, List.count_eq_zero.mpr hnin]
      simp
  · apply register_map_already connect false uuid mapId _ m1 ct (rsC ++ [m.id])
    · show findMap wB.maps mapId = some m1
      rw [hmapsB]
      exact hfind1
    · show wB.stds.mapset = m1.mapset
      rw [hmsB2, hms, hm1ms]
    · exact hmrB
    · show lookupTable (insertRow (insertRow wB.tables mt wB.stds.id) ct m.id)
        ct = some (rsC ++ [m.id])
      rw [lookupTable_insertRow_self, hct2]
      rfl
    · have hidm : m.id = mapId := findMap_id w.maps mapId m hfind
      simp [hidm]

/-- Witness for C3 at a concrete input: a fresh collection and a fresh
valid map, both without register tables. -/
theorem C3_register_twice_witness :
    findMap [{ id := "M", mapset := "p", startTime := 3, endTime := none,
               stdsRegister := none }] "M"
      = some { id := "M", mapset := "p", startTime := 3, endTime := none,
               stdsRegister := none } ∧
    (∃ w1,
      register_map false false "u" "M"
        { tables := [],
          maps := [{ id := "M", mapset := "p", startTime := 3,
                     endTime := none, stdsRegister := none }],
          stds := { id := "C", name := "n", mapset := "p",
                    mapRegister := none, startTime := none, endTime := none,
                    mapTime := none, numberOfMaps := 0 },
          stdsRow := true } = (.ok true, w1, false) ∧
      (∃ ct rsC, w1.stds.mapRegister = some ct ∧
        lookupTable w1.tables ct = some rsC ∧ rsC.count "M" = 1) ∧
      (∃ mt m1 rsM, findMap w1.maps "M" = some m1 ∧
        m1.stdsRegister = some mt ∧
        lookupTable w1.tables mt = some rsM ∧ rsM.count "C" = 1) ∧
      register_map false false "u" "M" w1 = (.ok false, w1, false)) := by
  refine ⟨by decide, ?_⟩
  exact C3_register_twice false "u" "M"
    { tables := [],
      maps := [{ id := "M", mapset := "p", startTime := 3,
                 endTime := none, stdsRegister := none }],
      stds := { id := "C", name := "n", mapset := "p",
                mapRegister := none, startTime := none, endTime := none,
                mapTime := none, numberOfMaps := 0 },
      stdsRow := true }
    { id := "M", mapset := "p", startTime := 3, endTime := none,
      stdsRegister := none }
    (by decide) rfl (by decide) (by decide) (by decide)

theorem temporal_relation_self (a : MapRecord) :
    temporal_relation a a = "equal" := by
  simp [temporal_relation]

theorem mem_insertSorted (m x : MapRecord) (l : List MapRecord) :
    x ∈ insertSorted m l ↔ x = m ∨ x ∈ l := by
  induction l with
  | nil => simp [insertSorted]
  | cons y ys ih =>
    simp only [insertSorted]
    by_cases hle : m.startTime ≤ y.startTime
    · rw [if_pos hle]
      simp [List.mem_cons]
    · rw [if_neg hle]
      simp only [List.mem_cons, ih]
      tauto

theorem pairwise_insertSorted (m : MapRecord) (l : List MapRecord)
    (h : l.Pairwise (fun a b => a.startTime ≤ b.startTime)) :
    (insertSorted m l).Pairwise (fun a b => a.startTime ≤ b.startTime) := by
  induction l with
  | nil => simp [insertSorted]
  | cons x xs ih =>
    rw [List.pairwise_cons] at h
    obtain ⟨hx, hxs⟩ := h
    simp only [insertSorted]
    by_cases hle : m.startTime ≤ x.startTime
    · rw [if_pos hle]
      refine List.Pairwise.cons ?_ (List.Pairwise.cons hx hxs)
      intro b hb
      rcases List.mem_cons.mp hb with hb | hb
      · rw [hb]
        exact hle
      · exact le_trans hle (hx b hb)
    · rw [if_neg hle]
      refine List.Pairwise.cons ?_ (ih hxs)
      intro b hb
      rcases (mem_insertSorted m b xs).mp hb with hb | hb
      · rw [hb]
        exact le_of_not_le hle
      · exact hx b hb

theorem sortByStart_pairwise (l : List MapRecord) :
    (sortByStart l).Pairwise (fun a b => a.startTime ≤ b.startTime) := by
  induction l with
  | nil => exact List.Pairwise.nil
  | cons x xs ih => exact pairwise_insertSorted x (sortByStart xs) ih

theorem getD_map_rows (ms : List MapRecord) (f : MapRecord → List String)
    (i : Nat) (h : i < ms.length) :
    (ms.map f).getD i [] = f (ms.getD i default) := by
  induction ms generalizing i with
  | nil => simp at h
  | cons x xs ih =>
    cases i with
    | zero => rfl
    | succ n =>
      simp only [List.map_cons, List.getD_cons_succ]
      exact ih n (by simpa using h)

theorem getD_map_cell (ms : List MapRecord) (f : MapRecord → String)
    (j : Nat) (h : j < ms.length) :
    (ms.map f).getD j "" = f (ms.getD j default) := by
  induction ms generalizing j with
  | nil => simp at h
  | cons x xs ih =>
    cases j with
    | zero => rfl
    | succ n =>
      simp only [List.map_cons, List.getD_cons_succ]
      exact ih n (by simpa using h)

/-- C6 (counterexample): for a concrete collection with two registered
members the matrix built by `get_temporal_relation_matrix` has three rows
of two cells each — it is not square, and the first cell of row 1 holds
the self-relation `"equal"`, not the member identifier that a column-0
header would hold. -/
theorem C6_counterexample_matrix_not_square :
    get_temporal_relation_matrix
      { tables := [("ct", ["A", "B"])],
        maps := [{ id := "A", mapset := "p", startTime := 5, endTime := none,
                   stdsRegister := some "mtA" },
                 { id := "B", mapset := "p", startTime := 1, endTime := some 4,
                   stdsRegister := some "mtB" }],
        stds := { id := "C", name := "n", mapset := "p",
                  mapRegister := some "ct", startTime := none, endTime := none,
                  mapTime := none, numberOfMaps := 2 },
        stdsRow := true }
      = .ok [["B", "A"], ["equal", "before"], ["after", "equal"]] ∧
    ([["B", "A"], ["equal", "before"], ["after", "equal"]] :
        List (List String)).length = 3 ∧
    (([["B", "A"], ["equal", "before"], ["after", "equal"]] :
        List (List String)).getD 0 []).length = 2 ∧
    (([["B", "A"], ["equal", "before"], ["after", "equal"]] :
        List (List String)).getD 1 []).getD 0 "" = "equal" ∧
    ¬ (([["B", "A"], ["equal", "before"], ["after", "equal"]] :
        List (List String)).length
      = (([["B", "A"], ["equal", "before"], ["after", "equal"]] :
        List (List String)).getD 0 []).length) := by
  exact ⟨rfl, rfl, rfl, rfl, by decide⟩

/-- C6 (amended): `get_temporal_relation_matrix` returns `n + 1` rows for
`n` registered members ordered by ascending start time: row 0 is the
header of member identifiers in that order; each following row has `n`
cells (no leading header column); for `0 ≤ i, j < n` the cell at row
`i + 1`, column `j` holds the temporal relation of member `i` to member
`j`; in particular the cell at row `i + 1`, column `i` — the
self-relation — is `equal`. -/
theorem C6_matrix_structure (w : World) (reg : String) (rows : List String)
    (h1 : w.stds.mapRegister = some reg)
    (h2 : lookupTable w.tables reg = some rows) :
    ∃ M, get_temporal_relation_matrix w = .ok M ∧
      M.length = (sortByStart (viewMembers w.maps rows)).length + 1 ∧
      M.getD 0 [] = (sortByStart (viewMembers w.maps rows)).map
        (fun m => m.id) ∧
      (∀ i, i < (sortByStart (viewMembers w.maps rows)).length →
        (M.getD (i + 1) []).length
          = (sortByStart (viewMembers w.maps rows)).length) ∧
      (∀ i j, i < (sortByStart (viewMembers w.maps rows)).length →
        j < (sortByStart (viewMembers w.maps rows)).length →
        (M.getD (i + 1) []).getD j ""
          = temporal_relation
              ((sortByStart (viewMembers w.maps rows)).getD i default)
              ((sortByStart (viewMembers w.maps rows)).getD j default)) ∧
      (∀ i, i < (sortByStart (viewMembers w.maps rows)).length →
        (M.getD (i + 1) []).getD i "" = "equal") ∧
      (sortByStart (viewMembers w.maps rows)).Pairwise
        (fun a b => a.startTime ≤ b.startTime) := by
  have hcell : ∀ i j, i < (sortByStart (viewMembers w.maps rows)).length →
      j < (sortByStart (viewMembers w.maps rows)).length →
      ((((sortByStart (viewMembers w.maps rows)).map
          (fun m => m.id)) ::
        (sortByStart (viewMembers w.maps rows)).map
          (fun a => (sortByStart (viewMembers w.maps rows)).map
            (fun b => temporal_relation a b))).getD (i + 1) []).getD j ""
        = temporal_relation
            ((sortByStart (viewMembers w.maps rows)).getD i default)
            ((sortByStart (viewMembers w.maps rows)).getD j default) := by
    intro i j hi hj
    rw [List.getD_cons_succ, getD_map_rows _ _ i hi, getD_map_cell _ _ j hj]
  refine ⟨((sortByStart (viewMembers w.maps rows)).map (fun m => m.id)) ::
      (sortByStart (viewMembers w.maps rows)).map
        (fun a => (sortByStart (viewMembers w.maps rows)).map
          (fun b => temporal_relation a b)),
    ?_, ?_, ?_, ?_, hcell, ?_, sortByStart_pairwise _⟩
  · unfold get_temporal_relation_matrix
    rw [h1]
    simp only [h2]
  · simp
  · simp
  · intro i hi
    rw [List.getD_cons_succ, getD_map_rows _ _ i hi]
    simp
  · intro i hi
    rw [hcell i i hi hi, temporal_relation_self]

/-- Witness for C6's amended theorem at the concrete two-member world. -/
theorem C6_matrix_structure_witness :
    ({ tables := [("ct", ["A", "B"])],
       maps := [{ id := "A", mapset := "p", startTime := 5, endTime := none,
                  stdsRegister := some "mtA" },
                { id := "B", mapset := "p", startTime := 1, endTime := some 4,
                  stdsRegister := some "mtB" }],
       stds := { id := "C", name := "n", mapset := "p",
                 mapRegister := some "ct", startTime := none, endTime := none,
                 mapTime := none, numberOfMaps := 2 },
       stdsRow := true } : World).stds.mapRegister = some "ct" ∧
    ∃ M, get_temporal_relation_matrix
      { tables := [("ct", ["A", "B"])],
        maps := [{ id := "A", mapset := "p", startTime := 5, endTime := none,
                   stdsRegister := some "mtA" },
                 { id := "B", mapset := "p", startTime := 1, endTime := some 4,
                   stdsRegister := some "mtB" }],
        stds := { id := "C", name := "n", mapset := "p",
                  mapRegister := some "ct", startTime := none, endTime := none,
                  mapTime := none, numberOfMaps := 2 },
        stdsRow := true } = .ok M ∧
      M.length = 3 ∧ (M.getD 2 []).getD 1 "" = "equal" := by
  refine ⟨rfl, ?_⟩
  obtain ⟨M, hok, hlen, _, _, _, hdiag, _⟩ :=
    C6_matrix_structure
      { tables := [("ct", ["A", "B"])],
        maps := [{ id := "A", mapset := "p", startTime := 5, endTime := none,
                   stdsRegister := some "mtA" },
                 { id := "B", mapset := "p", startTime := 1, endTime := some 4,
                   stdsRegister := some "mtB" }],
        stds := { id := "C", name := "n", mapset := "p",
                  mapRegister := some "ct", startTime := none, endTime := none,
                  mapTime := none, numberOfMaps := 2 },
        stdsRow := true } "ct" ["A", "B"] rfl rfl
  exact ⟨M, hok, by rw [hlen]; rfl, hdiag 1 (by decide)⟩

/-- `update_from_registered_maps` succeeds when the register table exists
and touches only the collection's extent fields (start, end,
classification, count). -/
theorem update_preserves (w : World) (reg : String) (rows : List String)
    (h1 : w.stds.mapRegister = some reg)
    (h2 : lookupTable w.tables reg = some rows) :
    ∃ w2, update_from_registered_maps w = .ok w2 ∧
      w2.tables = w.tables ∧ w2.maps = w.maps ∧
      w2.stds.mapRegister = w.stds.mapRegister ∧
      w2.stds.id = w.stds.id ∧ w2.stds.mapset = w.stds.mapset ∧
      w2.stds.name = w.stds.name ∧ w2.stdsRow = w.stdsRow := by
  cases hE : maxEnd (viewMembers w.maps rows) with
  | none =>
    unfold update_from_registered_maps
    rw [h1]
    simp only [h2, hE]
    exact ⟨_, rfl, rfl, rfl, h1, rfl, rfl, rfl, rfl⟩
  | some e =>
    have hne : viewMembers w.maps rows ≠ [] := maxEnd_ne_nil _ e hE
    have hs := maxStart_isSome (viewMembers w.maps rows) hne
    cases hS : maxStart (viewMembers w.maps rows) with
    | none => rw [hS] at hs; simp at hs
    | some mx =>
      unfold update_from_registered_maps
      rw [h1]
      simp only [h2, hE, hS]
      by_cases hlt : e < mx
      · rw [if_pos hlt]
        exact ⟨_, rfl, rfl, rfl, h1, rfl, rfl, rfl, rfl⟩
      · rw [if_neg hlt]
        exact ⟨_, rfl, rfl, rfl, h1, rfl, rfl, rfl, rfl⟩

/-- The success path of `unregister_map`: the pair is registered, so the
collection id is deleted from the map-side table, the map id from the
collection-side table, and the function returns `None`. -/
theorem unregister_map_success (connect : Bool) (mapId : String)
    (w : World) (m : MapRecord) (mt ct : String) (mrs : List String)
    (hfind : findMap w.maps mapId = some m)
    (hmt : m.stdsRegister = some mt)
    (hmrs : lookupTable w.tables mt = some mrs)
    (hin : mrs.contains w.stds.id = true)
    (hct : w.stds.mapRegister = some ct)
    (hctl : (lookupTable (deleteRow w.tables mt w.stds.id) ct).isSome
      = true) :
    unregister_map connect mapId w
      = (.ok none,
         { w with tables :=
             (deleteRow (deleteRow w.tables mt w.stds.id) ct mapId) },
         connect) := by
  unfold unregister_map
  rw [hfind]
  simp only [hmt, hmrs, hin, Bool.not_true, Bool.false_eq_true, if_false,
    hct]
  cases hcl : lookupTable (deleteRow w.tables mt w.stds.id) ct with
  | none => rw [hcl] at hctl; simp at hctl
  | some rs => simp only [hcl]

/-- Recomputation over an empty register table resets the collection's
extent to the empty-collection state: null start, null end, null
classification, zero count. -/
theorem update_empty (w : World) (reg : String)
    (h1 : w.stds.mapRegister = some reg)
    (h2 : lookupTable w.tables reg = some []) :
    update_from_registered_maps w
      = .ok { w with stds := { w.stds with
          startTime := none, endTime := none, mapTime := none,
          numberOfMaps := 0 } } := by
  unfold update_from_registered_maps
  rw [h1]
  simp only [h2]
  rw [show viewMembers w.maps [] = [] from by simp [viewMembers]]
  rfl

/-- C8: for every empty collection and valid member, the sequence
register; recompute; unregister; recompute leaves the collection's extent
and classification equal to its state before the member was ever
registered (the empty-collection state). -/
theorem C8_roundtrip (connect : Bool) (uuid mapId : String)
    (w : World) (m : MapRecord)
    (hreg0 : w.stds.mapRegister = none)
    (hst0 : w.stds.startTime = none)
    (hen0 : w.stds.endTime = none)
    (hmp0 : w.stds.mapTime = none)
    (hnm0 : w.stds.numberOfMaps = 0)
    (hfind : findMap w.maps mapId = some m)
    (hms : w.stds.mapset = m.mapset)
    (hmt : match m.stdsRegister with
           | none => hasTable w.tables (mapRegisterTableName uuid) = false
           | some t => ∃ rs, lookupTable w.tables t = some rs ∧
               rs.contains w.stds.id = false)
    (hctf : hasTable w.tables (stdsRegisterTableName w.stds) = false)
    (hne : stdsRegisterTableName w.stds
           ≠ m.stdsRegister.getD (mapRegisterTableName uuid)) :
    ∃ w1 w2 w3 w4,
      register_map connect false uuid mapId w = (.ok true, w1, connect) ∧
      update_from_registered_maps w1 = .ok w2 ∧
      unregister_map connect mapId w2 = (.ok none, w3, connect) ∧
      update_from_registered_maps w3 = .ok w4 ∧
      w4.stds.startTime = w.stds.startTime ∧
      w4.stds.endTime = w.stds.endTime ∧
      w4.stds.mapTime = w.stds.mapTime ∧
      w4.stds.numberOfMaps = w.stds.numberOfMaps := by
  have hidm : m.id = mapId := findMap_id w.maps mapId m hfind
  obtain ⟨mt, wA, rsM, hEm, hmtd, hstdsA, ⟨m1, hfind1, hm1r, hm1ms, hm1id⟩,
    hAmt, hAnc, hAother⟩ := ensure_map_register_spec uuid mapId m w hfind hmt
  rw [← hmtd] at hne
  have hctA : match wA.stds.mapRegister with
      | none => hasTable wA.tables (stdsRegisterTableName wA.stds) = false
      | some t => ∃ rs, lookupTable wA.tables t = some rs ∧
          rs.contains mapId = false := by
    rw [hstdsA, hreg0]
    simp only [hasTable]
    rw [hAother _ hne]
    exact hctf
  obtain ⟨ct, wB, rsC, hEs, hctd, hmapsB, hidB, hmsB, hmrB, hBct, hBnc,
    hBnil, hBother⟩ := ensure_stds_register_spec mapId wA hctA
  have hrsC : rsC = [] := hBnil (by rw [hstdsA]; exact hreg0)
  have hctmt : ct ≠ mt := by
    rw [hctd, hstdsA, hreg0]
    simpa using hne
  have hidB2 : wB.stds.id = w.stds.id := by rw [hidB, hstdsA]
  have hBmt : lookupTable wB.tables mt = some rsM := by
    rw [hBother _ (fun hh => hctmt hh.symm)]
    exact hAmt
  have hnc2 : rsM.contains wB.stds.id = false := by
    rw [hidB2]
    exact hAnc
  have hct2 : lookupTable (insertRow wB.tables mt wB.stds.id) ct
      = some rsC := by
    rw [lookupTable_insertRow_ne _ _ hctmt]
    exact hBct
  have hbody := register_body_success connect uuid m w wA wB mt ct rsM
    hEm hEs hBmt hnc2 (by rw [hct2]; rfl)
  have hfirst := register_map_eq_body connect false uuid mapId w m hfind hms
    (by rw [hreg0]; exact trivial)
  have hcall1 : register_map connect false uuid mapId w
      = (.ok true,
         { wB with
           tables := insertRow (insertRow wB.tables mt wB.stds.id) ct m.id },
         connect) := by
    rw [hfirst, hbody]
  have hw1ct : lookupTable
      (insertRow (insertRow wB.tables mt wB.stds.id) ct m.id) ct
      = some (rsC ++ [m.id]) := by
    rw [lookupTable_insertRow_self, hct2]
    rfl
  have hw1mt : lookupTable
      (insertRow (insertRow wB.tables mt wB.stds.id) ct m.id) mt
      = some (rsM ++ [wB.stds.id]) := by
    rw [lookupTable_insertRow_ne _ _ (fun hh => hctmt hh.symm),
      lookupTable_insertRow_self, hBmt]
    rfl
  obtain ⟨w2, hup1, h2tab, h2maps, h2reg, h2id, h2ms, h2name, h2row⟩ :=
    update_preserves
      { wB with
        tables := insertRow (insertRow wB.tables mt wB.stds.id) ct m.id }
      ct (rsC ++ [m.id]) hmrB hw1ct
  have hfind2 : findMap w2.maps mapId = some m1 := by
    rw [h2maps]
    show findMap wB.maps mapId = some m1
    rw [hmapsB]
    exact hfind1
  have h2mrs : lookupTable w2.tables mt = some (rsM ++ [wB.stds.id]) := by
    rw [h2tab]
    exact hw1mt
  have h2in : (rsM ++ [wB.stds.id]).contains w2.stds.id = true := by
    rw [h2id]
    show (rsM ++ [wB.stds.id]).contains wB.stds.id = true
    simp
  have h2reg2 : w2.stds.mapRegister = some ct := by
    rw [h2reg]
    exact hmrB
  have h2ctl : (lookupTable (deleteRow w2.tables mt w2.stds.id) ct).isSome
      = true := by
    rw [h2tab, h2id]
    show (lookupTable (deleteRow
      (insertRow (insertRow wB.tables mt wB.stds.id) ct m.id)
      mt wB.stds.id) ct).isSome = true
    rw [lookupTable_deleteRow_ne _ _ hctmt, hw1ct]
    rfl
  have hcall3 := unregister_map_success connect mapId w2 m1 mt ct
    (rsM ++ [wB.stds.id]) hfind2 hm1r h2mrs h2in h2reg2 h2ctl
  have hw3ct : lookupTable
      (deleteRow (deleteRow w2.tables mt w2.stds.id) ct mapId) ct
      = some [] := by
    rw [lookupTable_deleteRow_self, lookupTable_deleteRow_ne _ _ hctmt,
      h2tab, hw1ct]
    rw [hrsC, hidm]
    simp
  have hlast := update_empty
    { w2 with tables :=
        (deleteRow (deleteRow w2.tables mt w2.stds.id) ct mapId) }
    ct h2reg2 hw3ct
  exact ⟨_, _, _, _, hcall1, hup1, hcall3, hlast,
    hst0.symm, hen0.symm, hmp0.symm, hnm0.symm⟩

/-- Witness for C8 at a concrete input: an empty collection and a fresh
valid member. -/
theorem C8_roundtrip_witness :
    ({ tables := [],
       maps := [{ id := "M", mapset := "p", startTime := 3, endTime := none,
                  stdsRegister := none }],
       stds := { id := "C", name := "n", mapset := "p", mapRegister := none,
                 startTime := none, endTime := none, mapTime := none,
                 numberOfMaps := 0 },
       stdsRow := true } : World).stds.mapRegister = none ∧
    ∃ w1 w2 w3 w4,
      register_map true false "u" "M"
        { tables := [],
          maps := [{ id := "M", mapset := "p", startTime := 3,
                     endTime := none, stdsRegister := none }],
          stds := { id := "C", name := "n", mapset := "p",
                    mapRegister := none, startTime := none, endTime := none,
                    mapTime := none, numberOfMaps := 0 },
          stdsRow := true } = (.ok true, w1, true) ∧
      update_from_registered_maps w1 = .ok w2 ∧
      unregister_map true "M" w2 = (.ok none, w3, true) ∧
      update_from_registered_maps w3 = .ok w4 ∧
      w4.stds.startTime = none ∧ w4.stds.endTime = none ∧
      w4.stds.mapTime = none ∧ w4.stds.numberOfMaps = 0 := by
  refine ⟨rfl, ?_⟩
  obtain ⟨w1, w2, w3, w4, hc1, hc2, hc3, hc4, hs, he, hm, hn⟩ :=
    C8_roundtrip true "u" "M"
      { tables := [],
        maps := [{ id := "M", mapset := "p", startTime := 3,
                   endTime := none, stdsRegister := none }],
        stds := { id := "C", name := "n", mapset := "p", mapRegister := none,
                  startTime := none, endTime := none, mapTime := none,
                  numberOfMaps := 0 },
        stdsRow := true }
      { id := "M", mapset := "p", startTime := 3, endTime := none,
        stdsRegister := none }
      rfl rfl rfl rfl rfl (by decide) rfl (by decide) (by decide) (by decide)
  exact ⟨w1, w2, w3, w4, hc1, hc2, hc3, hc4, hs, he, hm, hn⟩

theorem deleteRow_preserves_not_mem (ts : List (String × List String))
    (x n v nd : String)
    (h : ∀ rs, lookupTable ts n = some rs → v ∉ rs) :
    ∀ rs', lookupTable (deleteRow ts nd x) n = some rs' → v ∉ rs' := by
  intro rs' hrs' hv
  obtain ⟨rs, hrs, hsub⟩ := deleteRow_subset ts hrs'
  exact h rs hrs (hsub v hv)

/-- One call of `unregister_map` made by the teardown loop with the
caller's connection: it succeeds, touches neither the map records nor the
collection record, only removes rows, preserves which tables exist, and
afterwards the collection id is absent from this map's member-side
table. -/
theorem unregister_map_step (i : String) (w : World) (m : MapRecord)
    (mt : String)
    (hfind : findMap w.maps i = some m)
    (hmt : m.stdsRegister = some mt)
    (hmts : (lookupTable w.tables mt).isSome = true)
    (hc : match w.stds.mapRegister with
          | none => True
          | some c => (lookupTable w.tables c).isSome = true) :
    ∃ v w', unregister_map false i w = (.ok v, w', false) ∧
      w'.maps = w.maps ∧ w'.stds = w.stds ∧ w'.stdsRow = w.stdsRow ∧
      (∀ n rs', lookupTable w'.tables n = some rs' →
        ∃ rs, lookupTable w.tables n = some rs ∧ ∀ x ∈ rs', x ∈ rs) ∧
      (∀ n, (lookupTable w'.tables n).isSome
        = (lookupTable w.tables n).isSome) ∧
      (∀ rs', lookupTable w'.tables mt = some rs' → w.stds.id ∉ rs') := by
  cases hmrs : lookupTable w.tables mt with
  | none => rw [hmrs] at hmts; simp at hmts
  | some mrs =>
    cases hin : mrs.contains w.stds.id with
    | false =>
      refine ⟨some false, w, ?_, rfl, rfl, rfl,
        fun n rs' h => ⟨rs', h, fun x hx => hx⟩, fun n => rfl, ?_⟩
      · unfold unregister_map
        rw [hfind]
        simp only [hmt, hmrs, hin, Bool.not_false, if_true]
      · intro rs' hrs' hv
        rw [hmrs] at hrs'
        cases hrs'
        exact (by simpa using hin : w.stds.id ∉ mrs) hv
    | true =>
      cases hreg : w.stds.mapRegister with
      | none =>
        refine ⟨none, { w with tables := deleteRow w.tables mt w.stds.id },
          ?_, rfl, rfl, rfl, ?_, ?_, ?_⟩
        · unfold unregister_map
          rw [hfind]
          simp only [hmt, hmrs, hin, Bool.not_true, Bool.false_eq_true,
            if_false, hreg]
        · intro n rs' h
          exact deleteRow_subset w.tables h
        · intro n
          exact lookupTable_deleteRow_isSome w.tables mt w.stds.id n
        · intro rs' hrs'
          exact deleteRow_not_mem w.tables hrs'
      | some c =>
        rw [hreg] at hc
        have hcs : (lookupTable (deleteRow w.tables mt w.stds.id) c).isSome
            = true := by
          rw [lookupTable_deleteRow_isSome]
          exact hc
        refine ⟨none,
          { w with tables :=
              (deleteRow (deleteRow w.tables mt w.stds.id) c i) },
          ?_, rfl, rfl, rfl, ?_, ?_, ?_⟩
        · unfold unregister_map
          rw [hfind]
          simp only [hmt, hmrs, hin, Bool.not_true, Bool.false_eq_true,
            if_false, hreg]
          cases hcl : lookupTable (deleteRow w.tables mt w.stds.id) c with
          | none => rw [hcl] at hcs; simp at hcs
          | some rs2 => simp only [hcl]
        · intro n rs' h
          obtain ⟨rs1, hrs1, hsub1⟩ := deleteRow_subset _ h
          obtain ⟨rs0, hrs0, hsub0⟩ := deleteRow_subset _ hrs1
          exact ⟨rs0, hrs0, fun x hx => hsub0 x (hsub1 x hx)⟩
        · intro n
          rw [lookupTable_deleteRow_isSome, lookupTable_deleteRow_isSome]
        · exact deleteRow_preserves_not_mem _ i mt w.stds.id c
            (fun rs hrs => deleteRow_not_mem w.tables hrs)

/-- The teardown loop over a list of registered map ids: it succeeds,
preserves the map records and the collection record, only removes rows,
preserves which tables exist, and afterwards the collection id is absent
from every processed map's member-side table. -/
theorem unregisterAll_spec (w : World) (ids : List String)
    (hids : ∀ i ∈ ids, ∃ m mt, findMap w.maps i = some m ∧
      m.stdsRegister = some mt ∧ (lookupTable w.tables mt).isSome = true)
    (hc : match w.stds.mapRegister with
          | none => True
          | some c => (lookupTable w.tables c).isSome = true) :
    ∃ w', unregisterAll w ids = (.ok (), w', false) ∧
      w'.maps = w.maps ∧ w'.stds = w.stds ∧ w'.stdsRow = w.stdsRow ∧
      (∀ n rs', lookupTable w'.tables n = some rs' →
        ∃ rs, lookupTable w.tables n = some rs ∧ ∀ x ∈ rs', x ∈ rs) ∧
      (∀ n, (lookupTable w'.tables n).isSome
        = (lookupTable w.tables n).isSome) ∧
      (∀ i ∈ ids, ∀ m mt, findMap w.maps i = some m →
        m.stdsRegister = some mt →
        ∀ rs', lookupTable w'.tables mt = some rs' → w.stds.id ∉ rs') := by
  induction ids generalizing w with
  | nil =>
    exact ⟨w, rfl, rfl, rfl, rfl, fun n rs' h => ⟨rs', h, fun x hx => hx⟩,
      fun n => rfl, fun i hi => absurd hi (List.not_mem_nil i)⟩
  | cons i rest ih =>
    obtain ⟨m, mt, hfind, hmt, hmts⟩ := hids i (List.mem_cons_self i rest)
    obtain ⟨v, w1, hstep, h1maps, h1stds, h1row, h1sub, h1some, h1gone⟩ :=
      unregister_map_step i w m mt hfind hmt hmts hc
    have hids1 : ∀ j ∈ rest, ∃ m2 mt2, findMap w1.maps j = some m2 ∧
        m2.stdsRegister = some mt2 ∧
        (lookupTable w1.tables mt2).isSome = true := by
      intro j hj
      obtain ⟨m2, mt2, hf2, hm2, hs2⟩ := hids j (List.mem_cons_of_mem i hj)
      exact ⟨m2, mt2, by rw [h1maps]; exact hf2, hm2,
        by rw [h1some]; exact hs2⟩
    have hc1 : match w1.stds.mapRegister with
        | none => True
        | some c => (lookupTable w1.tables c).isSome = true := by
      rw [h1stds]
      cases hreg : w.stds.mapRegister with
      | none => exact trivial
      | some c =>
        rw [hreg] at hc
        show (lookupTable w1.tables c).isSome = true
        rw [h1some]
        exact hc
    obtain ⟨w', hall, hmaps, hstds, hrow, hsub, hsome, hgone⟩ := ih w1 hids1 hc1
    refine ⟨w', ?_, by rw [hmaps, h1maps], by rw [hstds, h1stds],
      by rw [hrow, h1row], ?_, ?_, ?_⟩
    · unfold unregisterAll
      rw [hstep]
      exact hall
    · intro n rs' h
      obtain ⟨rs1, hrs1, hsub1⟩ := hsub n rs' h
      obtain ⟨rs0, hrs0, hsub0⟩ := h1sub n rs1 hrs1
      exact ⟨rs0, hrs0, fun x hx => hsub0 x (hsub1 x hx)⟩
    · intro n
      rw [hsome, h1some]
    · intro j hj m2 mt2 hf2 hm2 rs' hrs'
      rcases List.mem_cons.mp hj with hj | hj
      · subst hj
        have hm2m : m2 = m := by
          rw [hf2] at hfind
          exact Option.some_inj.mp hfind
        subst hm2m
        have hmt2m : mt2 = mt := by
          rw [hm2] at hmt
          exact Option.some_inj.mp hmt
        subst hmt2m
        obtain ⟨rs1, hrs1, hsub1⟩ := hsub mt2 rs' hrs'
        intro hv
        exact h1gone rs1 hrs1 (hsub1 _ hv)
      · have hf2' : findMap w1.maps j = some m2 := by
          rw [h1maps]
          exact hf2
        have hres := hgone j hj m2 mt2 hf2' hm2 rs' hrs'
        rw [h1stds] at hres
        exact hres

/-- C7: deleting a collection with a link table first unregisters every
registered member — afterwards no member-side link table holds a row with
the collection's id — then drops the collection-side link table (which no
longer exists afterwards), deletes the collection's own record and resets
the in-memory handle to the unbound state (`none`).  The hypotheses state
the ledger invariants of a well-formed database: map ids are unique, every
registered map's member-side table exists, and no member-side table holds
the collection's id without the map being registered. -/
theorem C7_delete_teardown (connect : Bool) (w : World) (reg : String)
    (rows : List String)
    (hreg : w.stds.mapRegister = some reg)
    (hrows : lookupTable w.tables reg = some rows)
    (hnd : (w.maps.map (fun mm => mm.id)).Nodup)
    (hmember : ∀ mm ∈ w.maps, rows.contains mm.id = true →
      (match mm.stdsRegister with
       | none => False
       | some mt => (lookupTable w.tables mt).isSome = true))
    (hcons : ∀ mm ∈ w.maps,
      (match mm.stdsRegister with
       | none => True
       | some mt =>
         match lookupTable w.tables mt with
         | none => True
         | some rs => w.stds.id ∈ rs → rows.contains mm.id = true)) :
    ∃ w', delete connect w = (.ok none, w', connect) ∧
      lookupTable w'.tables reg = none ∧
      w'.stdsRow = false ∧
      (∀ mm ∈ w.maps, ∀ mt rs', mm.stdsRegister = some mt →
        lookupTable w'.tables mt = some rs' → w.stds.id ∉ rs') := by
  have hids : ∀ i ∈ (viewMembers w.maps rows).map (fun mm => mm.id),
      ∃ m mt, findMap w.maps i = some m ∧
        m.stdsRegister = some mt ∧
        (lookupTable w.tables mt).isSome = true := by
    intro i hi
    obtain ⟨mm, hmm, hmi⟩ := List.mem_map.mp hi
    obtain ⟨hmem, hcont⟩ := List.mem_filter.mp hmm
    have hm := hmember mm hmem hcont
    cases hmr : mm.stdsRegister with
    | none => rw [hmr] at hm; exact absurd hm (by simp)
    | some mt =>
      rw [hmr] at hm
      exact ⟨mm, mt, hmi ▸ findMap_of_nodup w.maps mm hnd hmem, hmr, hm⟩
  have hc : match w.stds.mapRegister with
      | none => True
      | some c => (lookupTable w.tables c).isSome = true := by
    rw [hreg]
    show (lookupTable w.tables reg).isSome = true
    rw [hrows]
    rfl
  obtain ⟨w1, hall, h1maps, h1stds, h1row, h1sub, h1some, h1gone⟩ :=
    unregisterAll_spec w ((viewMembers w.maps rows).map (fun mm => mm.id))
      hids hc
  have hdrop : hasTable w1.tables reg = true := by
    simp only [hasTable]
    rw [h1some, hrows]
    rfl
  have hmain : delete connect w
      = (.ok none,
         { w1 with tables := dropTable w1.tables reg, stdsRow := false },
         connect) := by
    unfold delete
    rw [hreg]
    simp only [hrows, hall, hdrop, if_true]
  refine ⟨_, hmain, lookupTable_dropTable_self _ _, rfl, ?_⟩
  intro mm hmem mt rs' hmr hrs'
  have hne : mt ≠ reg := by
    intro he
    rw [he, lookupTable_dropTable_self] at hrs'
    cases hrs'
  rw [lookupTable_dropTable_ne _ hne] at hrs'
  cases hcont : rows.contains mm.id with
  | true =>
    have hmm : mm ∈ viewMembers w.maps rows :=
      List.mem_filter.mpr ⟨hmem, hcont⟩
    have hmid : mm.id ∈ (viewMembers w.maps rows).map (fun x => x.id) :=
      List.mem_map_of_mem _ hmm
    exact h1gone mm.id hmid mm mt (findMap_of_nodup w.maps mm hnd hmem)
      hmr rs' hrs'
  | false =>
    intro hv
    obtain ⟨rs, hrs, hsub⟩ := h1sub mt rs' hrs'
    have hk2 : match lookupTable w.tables mt with
        | none => True
        | some rs => w.stds.id ∈ rs → rows.contains mm.id = true := by
      have hk := hcons mm hmem
      rw [hmr] at hk
      exact hk
    rw [hrs] at hk2
    have hres : rows.contains mm.id = true := hk2 (hsub _ hv)
    rw [hcont] at hres
    cases hres

/-- Witness for C7 at a concrete input: a collection with two registered
members in a consistent ledger. -/
theorem C7_delete_teardown_witness :
    ({ tables := [("ct", ["A", "B"]), ("mtA", ["C"]), ("mtB", ["C"])],
       maps := [{ id := "A", mapset := "p", startTime := 5, endTime := none,
                  stdsRegister := some "mtA" },
                { id := "B", mapset := "p", startTime := 1, endTime := some 4,
                  stdsRegister := some "mtB" }],
       stds := { id := "C", name := "n", mapset := "p",
                 mapRegister := some "ct", startTime := none, endTime := none,
                 mapTime := none, numberOfMaps := 2 },
       stdsRow := true } : World).stds.mapRegister = some "ct" ∧
    ∃ w', delete true
      { tables := [("ct", ["A", "B"]), ("mtA", ["C"]), ("mtB", ["C"])],
        maps := [{ id := "A", mapset := "p", startTime := 5, endTime := none,
                   stdsRegister := some "mtA" },
                 { id := "B", mapset := "p", startTime := 1, endTime := some 4,
                   stdsRegister := some "mtB" }],
        stds := { id := "C", name := "n", mapset := "p",
                  mapRegister := some "ct", startTime := none, endTime := none,
                  mapTime := none, numberOfMaps := 2 },
        stdsRow := true } = (.ok none, w', true) ∧
      lookupTable w'.tables "ct" = none ∧ w'.stdsRow = false := by
  refine ⟨rfl, ?_⟩
  obtain ⟨w', hdel, hdropped, hrow, _⟩ :=
    C7_delete_teardown true
      { tables := [("ct", ["A", "B"]), ("mtA", ["C"]), ("mtB", ["C"])],
        maps := [{ id := "A", mapset := "p", startTime := 5, endTime := none,
                   stdsRegister := some "mtA" },
                 { id := "B", mapset := "p", startTime := 1, endTime := some 4,
                   stdsRegister := some "mtB" }],
        stds := { id := "C", name := "n", mapset := "p",
                  mapRegister := some "ct", startTime := none, endTime := none,
                  mapTime := none, numberOfMaps := 2 },
        stdsRow := true }
      "ct" ["A", "B"] rfl rfl (by decide)
      (by
        intro mm hmm
        rcases List.mem_cons.mp hmm with h | hmm2
        · subst h
          exact fun _ => rfl
        · rcases List.mem_cons.mp hmm2 with h | hmm3
          · subst h
            exact fun _ => rfl
          · cases hmm3)
      (by
        intro mm hmm
        rcases List.mem_cons.mp hmm with h | hmm2
        · subst h
          exact fun _ => rfl
        · rcases List.mem_cons.mp hmm2 with h | hmm3
          · subst h
            exact fun _ => rfl
          · cases hmm3)
  exact ⟨w', hdel, hdropped, hrow⟩

end GrassTemporal
